import Mathlib

/-!
# TownBasket admin real-time feed and fraud pipeline: a shallow embedding

This file embeds, as executable Lean definitions, the parts of the
TownBasket backend that the verified claims are about:

* the connection admission counter of `backend/core/admin_sse.py`
  (`_inc_connections`, `_dec_connections`, the pool check in `admin_sse`);
* the admin SSE stream generator `_admin_stream` (one poll iteration and
  the session loop with its teardown semantics);
* the fraud detection rules of `backend/core/fraud.py`
  (`detect_order_spike`, `detect_high_cancel_rate`, `detect_rapid_orders`,
  `detect_high_complaint_ratio`, `detect_repeated_refunds`,
  `detect_rapid_account_creation`, `compute_risk_score`,
  `run_all_detections`);
* the alert lifecycle views of `backend/core/fraud_views.py`
  (`dismiss_alert`, `investigate_alert`, `confirm_alert`);
* the circuit breaker of `backend/core/cache_utils.py`
  (`CircuitBreaker`, `with_circuit_breaker`).

Conventions of the embedding:

* Python `time.time()` timestamps and datetimes are modelled as integer
  seconds (`Int`); `timedelta(days=30)` is `30 * 86400`, etc.
* Python floats arising from division are modelled as rationals (`Rat`);
  `int(x)` (truncation toward zero) is `pyInt`.
* Django querysets are modelled as list computations over an explicit
  database state `DB`; `Model.objects.create` appends a row and bumps a
  fresh-id counter.
* Presentation-only string fields (`title`, `description`) are not
  modelled: no claim reads them.
* Python dict-with-default lookups (`d.get(k, v)`) over string keys are
  rendered as if-chains over the same keys and values.
-/

/-- Truncation toward zero of a rational, Python's `int(x)`.
`Rat` is stored reduced with a positive denominator, so `num.tdiv den`
is exactly truncation toward zero. -/
def pyInt (q : Rat) : Int :=
  q.num.tdiv q.den

/-!
Batteries marks `Rat.add`, `Rat.sub`, `Rat.mul` and `Rat.inv` as
`@[irreducible]`, which stops kernel evaluation of concrete scenarios
(`decide`).  The embedding therefore spells rational arithmetic with the
four reducible operations below, each defined by the textbook formula on
numerator and denominator via `Rat.divInt`; the theorems
`ratAdd_eq_add`, `ratSub_eq_sub`, `ratMul_eq_mul` and `ratDiv_eq_div`
prove them equal to the standard operations.
-/

/-- Rational addition in kernel-reducible form. -/
def ratAdd (a b : Rat) : Rat :=
  Rat.divInt (a.num * (b.den : Int) + b.num * (a.den : Int)) ((a.den : Int) * (b.den : Int))

/-- Rational subtraction in kernel-reducible form. -/
def ratSub (a b : Rat) : Rat :=
  Rat.divInt (a.num * (b.den : Int) - b.num * (a.den : Int)) ((a.den : Int) * (b.den : Int))

/-- Rational multiplication in kernel-reducible form. -/
def ratMul (a b : Rat) : Rat :=
  Rat.divInt (a.num * b.num) ((a.den : Int) * (b.den : Int))

/-- Rational division in kernel-reducible form (0 on a zero divisor,
like `Rat.div`). -/
def ratDiv (a b : Rat) : Rat :=
  Rat.divInt (a.num * (b.den : Int)) ((a.den : Int) * b.num)

/-- Sum of a list of rationals (`Sum(...)` aggregates). -/
def ratSum (l : List Rat) : Rat := l.foldl ratAdd 0

/-- Python's `a or b` on strings: `b` when `a` is falsy (empty). -/
def pyOrStr (a b : String) : String :=
  if a = "" then b else a

/-- Round half to even, Python's `round(x)` (banker's rounding). -/
def roundHalfEven (q : Rat) : Int :=
  let f := q.floor
  let frac := ratSub q (f : Rat)
  if frac < ratDiv 1 2 then f
  else if ratDiv 1 2 < frac then f + 1
  else if f % 2 = 0 then f else f + 1

/-- Python's `round(x, 3)`. -/
def round3 (q : Rat) : Rat :=
  ratDiv (roundHalfEven (ratMul q 1000) : Rat) 1000

/-- Python's `round(x, 1)`. -/
def round1 (q : Rat) : Rat :=
  ratDiv (roundHalfEven (ratMul q 10) : Rat) 10

-- ────────────────────────────────────────────
-- Data model (orders, users, complaints, fraud alerts)
-- ────────────────────────────────────────────

/-- A row of `orders_order` restricted to the fields the fraud rules and
the SSE stream read (`orders/models.py`). -/
structure Order where
  id : Nat
  customer_id : Nat
  status : String
  payment_status : String
  total : Rat
  created_at : Int
  deriving Repr, DecidableEq

/-- A row of the user table restricted to the fields read here
(`users/models.py`). -/
structure UserR where
  id : Nat
  supabase_uid : String
  name : String
  phone : String
  created_at : Int
  deriving Repr, DecidableEq

/-- A complaint row restricted to the fields read here
(`complaints/models.py`). -/
structure ComplaintR where
  user_supabase_uid : String
  status : String
  created_at : Int
  deriving Repr, DecidableEq

/-- The JSON metadata bag of a `FraudAlert`.  Each field is `none` when the
key is absent.  Keys written by the detectors and read by
`compute_risk_score` are all present here. -/
structure Metadata where
  cancel_rate : Option Rat := none
  multiplier : Option Rat := none
  order_count : Option Int := none
  complaint_ratio : Option Rat := none
  refund_count : Option Int := none
  account_count : Option Int := none
  risk_score : Option Int := none
  customer_id : Option Int := none
  total_orders : Option Int := none
  cancelled_orders : Option Int := none
  complaint_count : Option Int := none
  last_hour_count : Option Int := none
  avg_hourly : Option Rat := none
  window_minutes : Option Int := none
  window_days : Option Int := none
  window_hours : Option Int := none
  threshold : Option Int := none
  deriving Repr, DecidableEq

/-- A `FraudAlert` row (`core/fraud.py`, class `FraudAlert`), minus the
presentation-only `title`/`description` strings. -/
structure FraudAlert where
  id : Nat
  alert_type : String
  severity : String
  status : String
  target_type : String
  target_id : String
  target_name : String
  metadata : Metadata
  resolved_by : String
  resolved_at : Option Int
  resolution_note : String
  created_at : Int
  deriving Repr, DecidableEq

/-- The database state visible to the embedded code.  `nextAlertId` feeds
`FraudAlert.objects.create` with fresh surrogate ids. -/
structure DB where
  orders : List Order
  users : List UserR
  complaints : List ComplaintR
  alerts : List FraudAlert
  nextAlertId : Nat
  deriving Repr, DecidableEq

-- ────────────────────────────────────────────
-- Connection admission counter (admin_sse.py, lines 41-64 and 98-106)
-- ────────────────────────────────────────────

/-- `SSE_MAX_CONNECTIONS` (admin_sse.py line 46). -/
def SSE_MAX_CONNECTIONS : Int := 50

/-- `SSE_MAX_DURATION` in seconds (admin_sse.py line 45). -/
def SSE_MAX_DURATION : Int := 600

/-- `SSE_POLL_INTERVAL` (admin_sse.py line 42). -/
def SSE_POLL_INTERVAL : Int := 3

/-- `SSE_HEARTBEAT_INTERVAL` (admin_sse.py line 43). -/
def SSE_HEARTBEAT_INTERVAL : Int := 15

/-- `SSE_HEALTH_INTERVAL` (admin_sse.py line 44). -/
def SSE_HEALTH_INTERVAL : Int := 60

/-- `_inc_connections` (admin_sse.py lines 53-57): increment the shared
counter under the lock and return the new value. -/
def inc_connections (c : Int) : Int := c + 1

/-- `_dec_connections` (admin_sse.py lines 60-64): decrement floored at
zero under the lock, returning the new value. -/
def dec_connections (c : Int) : Int := max 0 (c - 1)

/-- The connection-pool check at the head of `admin_sse`
(admin_sse.py lines 98-106): increment, and if the post-increment value
exceeds `SSE_MAX_CONNECTIONS`, decrement back and answer 503.
Returns the counter afterwards paired with `some 503` on rejection and
`none` when the connection is admitted. -/
def admin_sse_poolCheck (c : Int) : Int × Option Nat :=
  let current := inc_connections c
  if current > SSE_MAX_CONNECTIONS then
    (dec_connections current, some 503)
  else
    (current, none)

/-- Iterate the pool check `n` times, tracking whether every attempt was
admitted. -/
def acquireAll : Nat → Int × Bool
  | 0 => (0, true)
  | n + 1 =>
    let (c, ok) := acquireAll n
    let (c', st) := admin_sse_poolCheck c
    (c', ok && st.isNone)

/-- One call of the counter API: `true` is `_inc_connections`, `false` is
`_dec_connections`. -/
def counterStep (c : Int) (op : Bool) : Int :=
  if op then inc_connections c else dec_connections c

/-- Run a sequence of `_inc_connections`/`_dec_connections` calls. -/
def counterRun (c : Int) (ops : List Bool) : Int :=
  ops.foldl counterStep c

-- ────────────────────────────────────────────
-- Circuit breaker (cache_utils.py, lines 116-197)
-- ────────────────────────────────────────────

/-- Configuration of `CircuitBreaker.__init__` (cache_utils.py 122-127). -/
structure CircuitBreaker where
  name : String
  threshold : Nat
  window : Int
  cooldown : Int
  deriving Repr, DecidableEq

/-- The dict stored under `circuit:<name>`:
`{'failures': _, 'last_failure': _, 'open': _}`. -/
structure CBState where
  failures : Nat
  last_failure : Int
  opened : Bool
  deriving Repr, DecidableEq

/-- The default state `_get_state` returns when the key is absent or
expired (cache_utils.py line 130). -/
def defaultCBState : CBState := ⟨0, 0, false⟩

/-- The cache cell holding a breaker's state together with its expiry
time (Django's `cache.set(key, value, timeout)`). -/
structure CBCache where
  entry : Option (CBState × Int)
  deriving Repr, DecidableEq

/-- `cache.get(key, default)` at time `now`, honouring the TTL. -/
def cbGet (c : CBCache) (now : Int) : CBState :=
  match c.entry with
  | some (s, expiry) => if now < expiry then s else defaultCBState
  | none => defaultCBState

/-- `cache.set(self._cache_key, state, timeout=self.window)` at `now`. -/
def cbSet (cb : CircuitBreaker) (_c : CBCache) (s : CBState) (now : Int) : CBCache :=
  ⟨some (s, now + cb.window)⟩

/-- `CircuitBreaker.is_open` (cache_utils.py 132-142).  Returns the
answer and the (possibly half-closed) cache state. -/
def CircuitBreaker.is_open (cb : CircuitBreaker) (c : CBCache) (now : Int) :
    Bool × CBCache :=
  let s := cbGet c now
  if !s.opened then (false, c)
  else if now - s.last_failure > cb.cooldown then
    (false, cbSet cb c { s with opened := false, failures := 0 } now)
  else (true, c)

/-- `CircuitBreaker.record_failure` (cache_utils.py 144-151). -/
def CircuitBreaker.record_failure (cb : CircuitBreaker) (c : CBCache) (now : Int) :
    CBCache :=
  let s := cbGet c now
  let s := { s with failures := s.failures + 1, last_failure := now }
  let s := if s.failures ≥ cb.threshold then { s with opened := true } else s
  cbSet cb c s now

/-- `CircuitBreaker.record_success` (cache_utils.py 153-157):
`cache.delete` of the state key. -/
def CircuitBreaker.record_success (_cb : CircuitBreaker) (_c : CBCache) : CBCache :=
  ⟨none⟩

/-- `overview_circuit = CircuitBreaker('overview', threshold=3, window=60, cooldown=20)`
(cache_utils.py line 162). -/
def overview_circuit : CircuitBreaker := ⟨"overview", 3, 60, 20⟩

/-- Outcome of one call through `with_circuit_breaker`. -/
inductive CallOutcome (R E : Type) where
  | served (r : R)
  | stale (r : R)
  | unavailable503 (retry_after : Int)
  | raised (e : E)
  deriving Repr, DecidableEq

/-- `with_circuit_breaker` (cache_utils.py 165-197) applied to one
request at time `now`.  `fallback` is the stale value under
`fallback_cache_key` (if any); `op` is the protected view's outcome.
Returns the call outcome, the breaker cache afterwards, and whether the
protected operation executed. -/
def with_circuit_breaker {R E : Type} (cb : CircuitBreaker) (c : CBCache)
    (now : Int) (fallback : Option R) (op : Except E R) :
    CallOutcome R E × CBCache × Bool :=
  let (isOp, c) := cb.is_open c now
  if isOp then
    match fallback with
    | some r => (.stale r, c, false)
    | none => (.unavailable503 cb.cooldown, c, false)
  else
    match op with
    | .ok r => (.served r, cb.record_success c, true)
    | .error e =>
      let c := cb.record_failure c now
      match fallback with
      | some r => (.stale r, c, true)
      | none => (.raised e, c, true)

-- ────────────────────────────────────────────
-- Fraud detection queries (fraud.py)
-- ────────────────────────────────────────────

/-- Orders with `created_at__gte=since`. -/
def recentOrders (db : DB) (since : Int) : List Order :=
  db.orders.filter (fun o => since ≤ o.created_at)

/-- The distinct customer ids of a queryset, in first-appearance order
(the grouping key of `.values('customer_id')`). -/
def customerIds (os : List Order) : List Nat :=
  (os.map (fun o => o.customer_id)).eraseDups

/-- `User.objects.filter(id=cid).first()`. -/
def findUser (db : DB) (cid : Nat) : Option UserR :=
  db.users.find? (fun u => u.id == cid)

/-- `FraudAlert.objects.create(...)`: append a row with a fresh id. -/
def createAlert (db : DB) (mk : Nat → FraudAlert) : DB × FraudAlert :=
  let a := mk db.nextAlertId
  ({ db with alerts := db.alerts ++ [a], nextAlertId := db.nextAlertId + 1 }, a)

/-- The per-user existing-alert filter used by `detect_high_cancel_rate`,
`detect_high_complaint_ratio` and `detect_repeated_refunds`:
`alert_type=atype, status__in=['active','investigating'], target_type='user',
target_id=str(cid)`. -/
def openUserAlert (atype : String) (cid : Nat) (a : FraudAlert) : Bool :=
  a.alert_type == atype
    && (a.status == "active" || a.status == "investigating")
    && a.target_type == "user"
    && a.target_id == toString cid

/-- The existing-alert filter of `detect_rapid_orders` (fraud.py 228-234):
`status='active'` only, and `created_at__gte=window_start`. -/
def activeRapidAlert (cid : Nat) (window_start : Int) (a : FraudAlert) : Bool :=
  a.alert_type == "rapid_orders"
    && a.status == "active"
    && a.target_type == "user"
    && a.target_id == toString cid
    && window_start ≤ a.created_at

/-- The existing-alert filter of `detect_order_spike` (fraud.py 119-123):
`alert_type='order_spike', status='active', created_at__gte=now - 1h`. -/
def activeSpikeAlert (since : Int) (a : FraudAlert) : Bool :=
  a.alert_type == "order_spike" && a.status == "active" && since ≤ a.created_at

/-- The existing-alert filter of `detect_rapid_account_creation`
(fraud.py 448-452). -/
def activeSignupAlert (since : Int) (a : FraudAlert) : Bool :=
  a.alert_type == "rapid_account_creation" && a.status == "active"
    && since ≤ a.created_at

/-- `Order.objects.order_by('created_at').first()`: minimum by
`created_at`, first row in table order among ties. -/
def firstOrder (db : DB) : Option Order :=
  db.orders.foldl
    (fun acc o =>
      match acc with
      | none => some o
      | some b => if o.created_at < b.created_at then some o else acc)
    none

-- ────────────────────────────────────────────
-- detect_order_spike (fraud.py 94-143)
-- ────────────────────────────────────────────

/-- `detect_order_spike` (fraud.py 94-143). -/
def detect_order_spike (db : DB) (now : Int) : DB × Option FraudAlert :=
  let last_hour_count := (db.orders.filter (fun o => now - 3600 ≤ o.created_at)).length
  let total_orders := db.orders.length
  if total_orders == 0 then (db, none)
  else
    match firstOrder db with
    | none => (db, none)
    | some first =>
      let hours_of_history : Rat := max (ratDiv ((now - first.created_at : Int) : Rat) 3600) 1
      let avg_hourly : Rat := ratDiv (total_orders : Rat) hours_of_history
      if 0 < avg_hourly ∧ ratMul avg_hourly 3 < (last_hour_count : Rat) then
        if db.alerts.any (activeSpikeAlert (now - 3600)) then (db, none)
        else
          let (db', a) := createAlert db (fun i =>
            { id := i
              alert_type := "order_spike"
              severity := "warning"
              status := "active"
              target_type := "system"
              target_id := ""
              target_name := ""
              metadata := { last_hour_count := some (last_hour_count : Int)
                            avg_hourly := some (round1 avg_hourly)
                            multiplier := some (round1 (ratDiv (last_hour_count : Rat) avg_hourly)) }
              resolved_by := ""
              resolved_at := none
              resolution_note := ""
              created_at := now })
          (db', some a)
      else (db, none)

-- ────────────────────────────────────────────
-- detect_high_cancel_rate (fraud.py 146-204)
-- ────────────────────────────────────────────

/-- One group row of
`values('customer_id').annotate(total=..., cancelled=...)`. -/
structure CancelStat where
  customer_id : Nat
  total : Nat
  cancelled : Nat
  deriving Repr, DecidableEq

/-- The `user_stats` queryset of `detect_high_cancel_rate`
(fraud.py 156-165): per-customer totals over orders since `since`,
keeping groups with `total__gte=min_orders`. -/
def cancelStats (db : DB) (since : Int) (min_orders : Nat) : List CancelStat :=
  (customerIds (recentOrders db since)).filterMap (fun cid =>
    let os := (recentOrders db since).filter (fun o => o.customer_id == cid)
    let total := os.length
    let cancelled := (os.filter (fun o => o.status == "cancelled")).length
    if min_orders ≤ total then some ⟨cid, total, cancelled⟩ else none)

/-- The body of the `for stat in user_stats` loop of
`detect_high_cancel_rate` (fraud.py 167-202), threading the database and
the `alerts_created` accumulator.  Defaults `threshold=0.3`,
`min_orders=5` are baked in as at the call site. -/
def hcrStep (now : Int) (acc : DB × List FraudAlert) (stat : CancelStat) :
    DB × List FraudAlert :=
  let cancel_rate : Rat := ratDiv (stat.cancelled : Rat) (stat.total : Rat)
  if ratDiv 3 10 ≤ cancel_rate then
    match findUser acc.1 stat.customer_id with
    | none => acc
    | some customer =>
      if acc.1.alerts.any (openUserAlert "high_cancel_rate" customer.id) then acc
      else
        let (db', a) := createAlert acc.1 (fun i =>
          { id := i
            alert_type := "high_cancel_rate"
            severity := if cancel_rate < ratDiv 1 2 then "warning" else "critical"
            status := "active"
            target_type := "user"
            target_id := toString customer.id
            target_name := pyOrStr customer.name (pyOrStr customer.phone "")
            metadata := { customer_id := some (customer.id : Int)
                          total_orders := some (stat.total : Int)
                          cancelled_orders := some (stat.cancelled : Int)
                          cancel_rate := some (round3 cancel_rate) }
            resolved_by := ""
            resolved_at := none
            resolution_note := ""
            created_at := now })
        (db', acc.2 ++ [a])
  else acc

/-- `detect_high_cancel_rate` (fraud.py 146-204) with its default
arguments `threshold=0.3`, `min_orders=5`. -/
def detect_high_cancel_rate (db : DB) (now : Int) : DB × List FraudAlert :=
  let since := now - 30 * 86400
  (cancelStats db since 5).foldl (hcrStep now) (db, [])

-- ────────────────────────────────────────────
-- detect_rapid_orders (fraud.py 207-256)
-- ────────────────────────────────────────────

/-- One group row of `values('customer_id').annotate(count=Count('id'))`. -/
structure CountStat where
  customer_id : Nat
  count : Nat
  deriving Repr, DecidableEq

/-- The `rapid_users` queryset of `detect_rapid_orders` (fraud.py
215-221): per-customer order counts since `window_start` with
`count__gt=max_orders`. -/
def rapidStats (db : DB) (window_start : Int) (max_orders : Nat) : List CountStat :=
  (customerIds (recentOrders db window_start)).filterMap (fun cid =>
    let n := ((recentOrders db window_start).filter (fun o => o.customer_id == cid)).length
    if max_orders < n then some ⟨cid, n⟩ else none)

/-- The body of the `for entry in rapid_users` loop of
`detect_rapid_orders` (fraud.py 223-254). -/
def roStep (now window_start : Int) (acc : DB × List FraudAlert) (stat : CountStat) :
    DB × List FraudAlert :=
  match findUser acc.1 stat.customer_id with
  | none => acc
  | some customer =>
    if acc.1.alerts.any (activeRapidAlert customer.id window_start) then acc
    else
      let (db', a) := createAlert acc.1 (fun i =>
        { id := i
          alert_type := "rapid_orders"
          severity := "critical"
          status := "active"
          target_type := "user"
          target_id := toString customer.id
          target_name := pyOrStr customer.name (pyOrStr customer.phone "")
          metadata := { customer_id := some (customer.id : Int)
                        order_count := some (stat.count : Int)
                        window_minutes := some 5 }
          resolved_by := ""
          resolved_at := none
          resolution_note := ""
          created_at := now })
      (db', acc.2 ++ [a])

/-- `detect_rapid_orders` (fraud.py 207-256) with its default arguments
`window_minutes=5`, `max_orders=3`. -/
def detect_rapid_orders (db : DB) (now : Int) : DB × List FraudAlert :=
  let window_start := now - 5 * 60
  (rapidStats db window_start 3).foldl (roStep now window_start) (db, [])

-- ────────────────────────────────────────────
-- detect_high_complaint_ratio (fraud.py 314-375)
-- ────────────────────────────────────────────

/-- One group row of the `user_orders` queryset of
`detect_high_complaint_ratio` (fraud.py 322-329). -/
structure TotalStat where
  customer_id : Nat
  total : Nat
  deriving Repr, DecidableEq

/-- Per-customer order totals since `since`, keeping groups with
`total__gte=min_orders`. -/
def orderTotals (db : DB) (since : Int) (min_orders : Nat) : List TotalStat :=
  (customerIds (recentOrders db since)).filterMap (fun cid =>
    let total := ((recentOrders db since).filter (fun o => o.customer_id == cid)).length
    if min_orders ≤ total then some ⟨cid, total⟩ else none)

/-- `Complaint.objects.filter(user_supabase_uid=..., created_at__gte=since).count()`
(fraud.py 336-339). -/
def complaintCountOf (db : DB) (customer : UserR) (since : Int) : Nat :=
  (db.complaints.filter (fun c =>
    c.user_supabase_uid == customer.supabase_uid && since ≤ c.created_at)).length

/-- The body of the `for stat in user_orders` loop of
`detect_high_complaint_ratio` (fraud.py 331-373). -/
def hcStep (now since : Int) (acc : DB × List FraudAlert) (stat : TotalStat) :
    DB × List FraudAlert :=
  match findUser acc.1 stat.customer_id with
  | none => acc
  | some customer =>
    let complaint_count := complaintCountOf acc.1 customer since
    if complaint_count == 0 then acc
    else
      let ratio : Rat := ratDiv (complaint_count : Rat) (stat.total : Rat)
      if ratDiv 1 4 ≤ ratio then
        if acc.1.alerts.any (openUserAlert "high_complaint_ratio" customer.id) then acc
        else
          let (db', a) := createAlert acc.1 (fun i =>
            { id := i
              alert_type := "high_complaint_ratio"
              severity := if ratio < ratDiv 1 2 then "warning" else "critical"
              status := "active"
              target_type := "user"
              target_id := toString customer.id
              target_name := pyOrStr customer.name (pyOrStr customer.phone "")
              metadata := { customer_id := some (customer.id : Int)
                            total_orders := some (stat.total : Int)
                            complaint_count := some (complaint_count : Int)
                            complaint_ratio := some (round3 ratio) }
              resolved_by := ""
              resolved_at := none
              resolution_note := ""
              created_at := now })
          (db', acc.2 ++ [a])
      else acc

/-- `detect_high_complaint_ratio` (fraud.py 314-375) with its default
arguments `threshold=0.25`, `min_orders=3`. -/
def detect_high_complaint_ratio (db : DB) (now : Int) : DB × List FraudAlert :=
  let since := now - 30 * 86400
  (orderTotals db since 3).foldl (hcStep now since) (db, [])

-- ────────────────────────────────────────────
-- detect_repeated_refunds (fraud.py 382-431)
-- ────────────────────────────────────────────

/-- The `refund_users` queryset of `detect_repeated_refunds`
(fraud.py 390-396): per-customer counts of refunded orders since
`since`, keeping groups with `refund_count__gte=threshold`. -/
def refundStats (db : DB) (since : Int) (threshold : Nat) : List CountStat :=
  let refunded := db.orders.filter (fun o =>
    since ≤ o.created_at && o.payment_status == "refunded")
  (customerIds refunded).filterMap (fun cid =>
    let n := (refunded.filter (fun o => o.customer_id == cid)).length
    if threshold ≤ n then some ⟨cid, n⟩ else none)

/-- The body of the `for entry in refund_users` loop of
`detect_repeated_refunds` (fraud.py 398-429). -/
def rrStep (now : Int) (acc : DB × List FraudAlert) (stat : CountStat) :
    DB × List FraudAlert :=
  match findUser acc.1 stat.customer_id with
  | none => acc
  | some customer =>
    if acc.1.alerts.any (openUserAlert "repeated_refunds" customer.id) then acc
    else
      let (db', a) := createAlert acc.1 (fun i =>
        { id := i
          alert_type := "repeated_refunds"
          severity := if 6 ≤ stat.count then "critical" else "warning"
          status := "active"
          target_type := "user"
          target_id := toString customer.id
          target_name := pyOrStr customer.name (pyOrStr customer.phone "")
          metadata := { customer_id := some (customer.id : Int)
                        refund_count := some (stat.count : Int)
                        window_days := some 30 }
          resolved_by := ""
          resolved_at := none
          resolution_note := ""
          created_at := now })
      (db', acc.2 ++ [a])

/-- `detect_repeated_refunds` (fraud.py 382-431) with its default
arguments `threshold=3`, `days=30`. -/
def detect_repeated_refunds (db : DB) (now : Int) : DB × List FraudAlert :=
  let since := now - 30 * 86400
  (refundStats db since 3).foldl (rrStep now) (db, [])

-- ────────────────────────────────────────────
-- detect_rapid_account_creation (fraud.py 438-472)
-- ────────────────────────────────────────────

/-- `detect_rapid_account_creation` (fraud.py 438-472) with its default
arguments `window_hours=1`, `threshold=5`. -/
def detect_rapid_account_creation (db : DB) (now : Int) : DB × Option FraudAlert :=
  let window_start := now - 3600
  let new_accounts := (db.users.filter (fun u => window_start ≤ u.created_at)).length
  if 5 ≤ new_accounts then
    if db.alerts.any (activeSignupAlert window_start) then (db, none)
    else
      let (db', a) := createAlert db (fun i =>
        { id := i
          alert_type := "rapid_account_creation"
          severity := if new_accounts < 10 then "warning" else "critical"
          status := "active"
          target_type := "system"
          target_id := ""
          target_name := ""
          metadata := { account_count := some (new_accounts : Int)
                        window_hours := some 1
                        threshold := some 5 }
          resolved_by := ""
          resolved_at := none
          resolution_note := ""
          created_at := now })
      (db', some a)
  else (db, none)

-- ────────────────────────────────────────────
-- compute_risk_score (fraud.py 263-307)
-- ────────────────────────────────────────────

/-- `severity_weights.get(alert.severity, 10)` (fraud.py 271-272),
rendered as an if-chain over the same keys, weights and default. -/
def severityWeight (s : String) : Int :=
  if s == "critical" then 40
  else if s == "warning" then 25
  else if s == "info" then 10
  else 10

/-- `type_weights.get(alert.alert_type, 10)` (fraud.py 275-285). -/
def typeWeight (t : String) : Int :=
  if t == "order_spike" then 15
  else if t == "high_cancel_rate" then 20
  else if t == "rapid_orders" then 25
  else if t == "high_complaint_ratio" then 20
  else if t == "repeated_refunds" then 25
  else if t == "rapid_account_creation" then 15
  else if t == "high_refund_rate" then 20
  else if t == "suspicious_pattern" then 20
  else 10

/-- The contextual metadata boosts (fraud.py 288-300): each `if key in
meta: score += min(..., cap)` contributes its term when the key is
present and `0` otherwise. -/
def metaBoost (m : Metadata) : Int :=
  (match m.cancel_rate with | some v => min (pyInt (ratMul v 30)) 25 | none => 0)
  + (match m.multiplier with | some v => min (pyInt (ratMul v 3)) 20 | none => 0)
  + (match m.order_count with | some v => min (v * 2) 15 | none => 0)
  + (match m.complaint_ratio with | some v => min (pyInt (ratMul v 25)) 20 | none => 0)
  + (match m.refund_count with | some v => min (v * 3) 15 | none => 0)
  + (match m.account_count with | some v => min (v * 2) 15 | none => 0)

/-- The score computed by `compute_risk_score` (fraud.py 263-302):
severity weight plus type weight plus metadata boosts, capped at 100. -/
def riskScoreOf (a : FraudAlert) : Int :=
  min (severityWeight a.severity + typeWeight a.alert_type + metaBoost a.metadata) 100

/-- The in-memory effect of `alert.metadata['risk_score'] = score`. -/
def scoreAlert (a : FraudAlert) : FraudAlert :=
  { a with metadata := { a.metadata with risk_score := some (riskScoreOf a) } }

/-- `compute_risk_score(alert)` (fraud.py 263-307): compute the score,
persist it into the alert row's metadata (`alert.save`), and return it. -/
def compute_risk_score (db : DB) (a : FraudAlert) : DB × Int :=
  let score := riskScoreOf a
  ({ db with alerts := db.alerts.map (fun x =>
      if x.id == a.id then
        { x with metadata := { a.metadata with risk_score := some score } }
      else x) },
   score)

-- ────────────────────────────────────────────
-- run_all_detections (fraud.py 479-500)
-- ────────────────────────────────────────────

/-- The per-rule result map of `run_all_detections`. -/
structure DetectionResults where
  order_spike : Option FraudAlert
  high_cancel_rate : List FraudAlert
  rapid_orders : List FraudAlert
  high_complaint_ratio : List FraudAlert
  repeated_refunds : List FraudAlert
  rapid_account_creation : Option FraudAlert
  deriving Repr, DecidableEq

/-- `compute_risk_score` used for its persistence effect only. -/
def saveRisk (db : DB) (a : FraudAlert) : DB :=
  (compute_risk_score db a).1

/-- `run_all_detections` (fraud.py 479-500): run the six detectors in
source order, then attach risk scores to every newly created alert.  The
returned map carries the created alerts with their risk scores filled
in, as the Python in-place metadata mutation leaves them. -/
def run_all_detections (db : DB) (now : Int) : DB × DetectionResults :=
  let (db1, os) := detect_order_spike db now
  let (db2, hcr) := detect_high_cancel_rate db1 now
  let (db3, ro) := detect_rapid_orders db2 now
  let (db4, hc) := detect_high_complaint_ratio db3 now
  let (db5, rr) := detect_repeated_refunds db4 now
  let (db6, rac) := detect_rapid_account_creation db5 now
  let created := os.toList ++ hcr ++ ro ++ hc ++ rr ++ rac.toList
  let db7 := created.foldl saveRisk db6
  (db7,
   { order_spike := os.map scoreAlert
     high_cancel_rate := hcr.map scoreAlert
     rapid_orders := ro.map scoreAlert
     high_complaint_ratio := hc.map scoreAlert
     repeated_refunds := rr.map scoreAlert
     rapid_account_creation := rac.map scoreAlert })

/-- Control-flow skeleton of `run_all_detections` (fraud.py 479-500)
when the detector calls themselves may raise.  The Python body evaluates
the six detector calls in source order inside a dict literal with no
`try`/`except`, so a raising call aborts the construction and the
exception propagates; the risk-scoring pass only runs after all six
succeeded.  Each argument is the outcome of the corresponding detector
call. -/
def run_all_detections_raising
    (order_spike_run : Except String (Option FraudAlert))
    (high_cancel_rate_run : Except String (List FraudAlert))
    (rapid_orders_run : Except String (List FraudAlert))
    (high_complaint_ratio_run : Except String (List FraudAlert))
    (repeated_refunds_run : Except String (List FraudAlert))
    (rapid_account_creation_run : Except String (Option FraudAlert)) :
    Except String DetectionResults := do
  let os ← order_spike_run
  let hcr ← high_cancel_rate_run
  let ro ← rapid_orders_run
  let hc ← high_complaint_ratio_run
  let rr ← repeated_refunds_run
  let rac ← rapid_account_creation_run
  pure { order_spike := os
         high_cancel_rate := hcr
         rapid_orders := ro
         high_complaint_ratio := hc
         repeated_refunds := rr
         rapid_account_creation := rac }

-- ────────────────────────────────────────────
-- Alert lifecycle views (fraud_views.py)
-- ────────────────────────────────────────────

/-- Write an updated alert row back (`alert.save()`). -/
def updateAlertRow (db : DB) (a : FraudAlert) : DB :=
  { db with alerts := db.alerts.map (fun x => if x.id == a.id then a else x) }

/-- `dismiss_alert` (fraud_views.py 94-118): look the alert up (404 as
`none`), then unconditionally set `status='dismissed'`, `resolved_by`,
`resolved_at`, `resolution_note` and save. -/
def dismiss_alert (db : DB) (alert_id : Nat) (actor note : String) (now : Int) :
    DB × Option String :=
  match db.alerts.find? (fun a => a.id == alert_id) with
  | none => (db, none)
  | some alert =>
    let alert := { alert with
      status := "dismissed"
      resolved_by := actor
      resolved_at := some now
      resolution_note := note }
    (updateAlertRow db alert, some "dismissed")

/-- `investigate_alert` (fraud_views.py 128-151): unconditionally set
`status='investigating'`, `resolved_by` and `resolution_note`
(`resolved_at` is left as it was). -/
def investigate_alert (db : DB) (alert_id : Nat) (actor note : String) :
    DB × Option String :=
  match db.alerts.find? (fun a => a.id == alert_id) with
  | none => (db, none)
  | some alert =>
    let alert := { alert with
      status := "investigating"
      resolved_by := actor
      resolution_note := note }
    (updateAlertRow db alert, some "investigating")

/-- `confirm_alert` (fraud_views.py 252-276): unconditionally set
`status='confirmed'`, `resolved_by`, `resolved_at`, `resolution_note`. -/
def confirm_alert (db : DB) (alert_id : Nat) (actor note : String) (now : Int) :
    DB × Option String :=
  match db.alerts.find? (fun a => a.id == alert_id) with
  | none => (db, none)
  | some alert =>
    let alert := { alert with
      status := "confirmed"
      resolved_by := actor
      resolved_at := some now
      resolution_note := note }
    (updateAlertRow db alert, some "confirmed")

-- ────────────────────────────────────────────
-- Admin SSE stream (admin_sse.py 118-320)
-- ────────────────────────────────────────────

/-- The events `_admin_stream` yields, keyed by their `type` field.
Payloads keep the numeric/identifying fields; display-only strings of
the JSON payloads are dropped. -/
inductive SseEvent where
  | connected (maxDuration : Int)
  | timeout
  | new_order (order_id : Nat) (status : String) (total : Rat) (created_at : Int)
  | revenue_update (today_revenue : Rat) (today_orders : Nat)
  | system_alert_spike (last_hour : Nat) (avg_hourly : Rat)
  | fraud_alert (alert_id : Nat) (alert_type : String) (severity : String)
  | complaint_spike (pending_count : Nat) (delta : Int)
  | health_status (status : String) (db_status : String) (cache_status : String)
  | heartbeat (uptime : Int) (connections : Int)
  | error (message : String)
  deriving Repr, DecidableEq

/-- The per-connection local state of `_admin_stream`
(admin_sse.py 123-131), plus the truthiness of the baseline `latest`
order captured before the loop (line 134, reused at line 219). -/
structure SessionState where
  event_id : Nat
  start_time : Int
  last_heartbeat : Int
  last_health_check : Int
  last_order_id : Option Nat
  last_fraud_alert_id : Nat
  last_complaint_count : Nat
  baselineHadOrder : Bool
  deriving Repr, DecidableEq

/-- Number each event with the next `event_id` values, mirroring the
`event_id += 1; yield ...` pattern.  Returns the numbered events and the
final `event_id`. -/
def emitAll (n : Nat) : List SseEvent → List (Nat × SseEvent) × Nat
  | [] => ([], n)
  | e :: es => ((n + 1, e) :: (emitAll (n + 1) es).1, (emitAll (n + 1) es).2)

/-- Insert into a list kept in descending-id order. -/
def insertDescById (o : Order) : List Order → List Order
  | [] => [o]
  | b :: bs => if b.id < o.id then o :: b :: bs else b :: insertDescById o bs

/-- `Order.objects.order_by('-id')`. -/
def sortDescById (os : List Order) : List Order :=
  os.foldr insertDescById []

/-- Insert into an alert list kept in ascending-id order. -/
def insertAscById (a : FraudAlert) : List FraudAlert → List FraudAlert
  | [] => [a]
  | b :: bs => if a.id < b.id then a :: b :: bs else b :: insertAscById a bs

/-- `FraudAlert.objects...order_by('id')`. -/
def sortAscById (xs : List FraudAlert) : List FraudAlert :=
  xs.foldr insertAscById []

/-- `_probe_health` (admin_sse.py 323-348) given whether the database
probe and the cache round-trip succeed: overall status, `db`,
`cache_status`. -/
def probe_health (dbOk cacheOk : Bool) : String × String × String :=
  (if dbOk && cacheOk then "healthy" else "degraded",
   if dbOk then "connected" else "error",
   if cacheOk then "connected" else "error")

/-- The new-order queryset of one poll iteration (admin_sse.py
170-175): orders beyond the `last_order_id` cursor, newest first,
bounded batch of 10. -/
def newOrdersOf (db : DB) (st : SessionState) : List Order :=
  let qs : List Order :=
    match st.last_order_id with
    | some lid => (sortDescById db.orders).filter (fun o => lid < o.id)
    | none => sortDescById db.orders
  qs.take 10

/-- The `new_order` emissions of one iteration (admin_sse.py 179-193). -/
def orderPhase (db : DB) (st : SessionState) : List SseEvent :=
  (newOrdersOf db st).map (fun o =>
    SseEvent.new_order o.id o.status o.total o.created_at)

/-- The `revenue_update` emission, coupled to new-order detection
(admin_sse.py 195-211).  Calendar dates (`created_at__date`,
`timezone.localdate()`) are day indices `time / 86400`. -/
def revenuePhase (db : DB) (t : Int) (st : SessionState) : List SseEvent :=
  match newOrdersOf db st with
  | [] => []
  | _ :: _ =>
    let today := t / 86400
    let today_revenue :=
      ratSum ((db.orders.filter (fun o =>
        o.status == "delivered" && o.created_at / 86400 == today)).map
          (fun o => o.total))
    let today_orders :=
      (db.orders.filter (fun o => o.created_at / 86400 == today)).length
    [SseEvent.revenue_update today_revenue today_orders]

/-- The inline anomaly check's transient `system_alert`
(admin_sse.py 213-236).  The `latest` conjunct is the baseline order
captured at session start. -/
def spikePhase (db : DB) (t : Int) (st : SessionState) : List SseEvent :=
  let last_hour_count := (db.orders.filter (fun o => t - 3600 ≤ o.created_at)).length
  let total_orders := db.orders.length
  if 0 < total_orders && st.baselineHadOrder then
    match firstOrder db with
    | none => []
    | some first =>
      let hours_span : Rat := max (ratDiv ((t - first.created_at : Int) : Rat) 3600) 1
      let avg_hourly : Rat := ratDiv (total_orders : Rat) hours_span
      if ratMul avg_hourly 3 < (last_hour_count : Rat) ∧ 0 < avg_hourly then
        [SseEvent.system_alert_spike last_hour_count (round1 avg_hourly)]
      else []
  else []

/-- The new-fraud-alert queryset of one iteration (admin_sse.py
241-244): active alerts beyond the alert cursor, ascending id, top 5. -/
def newFraudOf (db : DB) (st : SessionState) : List FraudAlert :=
  (sortAscById (db.alerts.filter (fun a =>
    st.last_fraud_alert_id < a.id && a.status == "active"))).take 5

/-- The `fraud_alert` emissions of one iteration (admin_sse.py 246-261). -/
def fraudPhase (db : DB) (st : SessionState) : List SseEvent :=
  (newFraudOf db st).map (fun a =>
    SseEvent.fraud_alert a.id a.alert_type a.severity)

/-- `Complaint.objects.filter(status='pending').count()`. -/
def pendingCount (db : DB) : Nat :=
  (db.complaints.filter (fun c => c.status == "pending")).length

/-- The `complaint_spike` emission (admin_sse.py 265-279). -/
def complaintPhase (db : DB) (st : SessionState) : List SseEvent :=
  if st.last_complaint_count + 3 < pendingCount db then
    [SseEvent.complaint_spike (pendingCount db)
      ((pendingCount db : Int) - (st.last_complaint_count : Int))]
  else []

/-- The `health_status` emission (admin_sse.py 281-289). -/
def healthPhase (dbOk cacheOk : Bool) (t : Int) (st : SessionState) : List SseEvent :=
  if SSE_HEALTH_INTERVAL < t - st.last_health_check then
    let h := probe_health dbOk cacheOk
    [SseEvent.health_status h.1 h.2.1 h.2.2]
  else []

/-- The `heartbeat` emission (admin_sse.py 291-299): fires exactly when
more than `SSE_HEARTBEAT_INTERVAL` seconds passed since the last
heartbeat, carrying the session uptime and the global connection
count. -/
def heartbeatPhase (connCount : Int) (t : Int) (st : SessionState) : List SseEvent :=
  if SSE_HEARTBEAT_INTERVAL < t - st.last_heartbeat then
    [SseEvent.heartbeat (t - st.start_time) connCount]
  else []

/-- One successful poll iteration of `_admin_stream` (the `try:` body,
admin_sse.py 169-299) at wall-clock time `t`: the seven phases in
source order, numbered by consecutive `event_id`s, together with the
cursor updates.  `connCount` is the global `_conn_count` read by the
heartbeat; `dbOk`, `cacheOk` feed the health probe.  Both `elapsed` and
`now` of the source are `t` (two adjacent `time.time()` reads of the
same tick). -/
def streamIteration (db : DB) (connCount : Int) (dbOk cacheOk : Bool)
    (t : Int) (st : SessionState) : List (Nat × SseEvent) × SessionState :=
  let events := orderPhase db st ++ revenuePhase db t st ++ spikePhase db t st
    ++ fraudPhase db st ++ complaintPhase db st ++ healthPhase dbOk cacheOk t st
    ++ heartbeatPhase connCount t st
  ((emitAll st.event_id events).1,
   { st with
     event_id := (emitAll st.event_id events).2
     last_order_id :=
       match newOrdersOf db st with
       | [] => st.last_order_id
       | o :: _ => some o.id
     last_fraud_alert_id :=
       (newFraudOf db st).foldl (fun _ a => a.id) st.last_fraud_alert_id
     last_complaint_count := pendingCount db
     last_health_check :=
       if SSE_HEALTH_INTERVAL < t - st.last_health_check then t
       else st.last_health_check
     last_heartbeat :=
       if SSE_HEARTBEAT_INTERVAL < t - st.last_heartbeat then t
       else st.last_heartbeat })

/-- The environment of one tick of the `while True` loop: the database
snapshot the queries see, the global connection count, the health-probe
outcomes, the wall-clock time — and the two abnormal deliveries: an
exception raised inside the poll iteration (`raises`), and the client's
disconnect surfacing as `GeneratorExit` at the suspension point
(`disconnect`). -/
structure TickInput where
  db : DB
  connCount : Int
  dbOk : Bool
  cacheOk : Bool
  t : Int
  raises : Bool
  disconnect : Bool
  deriving Repr, DecidableEq

/-- How a run of the stream loop ended. `exhausted` means the supplied
schedule ran out with the generator still suspended (no exit happened
yet). -/
inductive ExitKind where
  | timedOut
  | errored
  | disconnected
  | exhausted
  deriving Repr, DecidableEq

/-- The `while True` loop of `_admin_stream` (admin_sse.py 157-310)
driven by a schedule of tick environments:
* elapsed time beyond `SSE_MAX_DURATION` yields a final `timeout` event
  and breaks (lines 158-165);
* a `GeneratorExit` delivered by the disconnected client ends iteration
  (line 312);
* an exception inside the iteration is caught, yields a generic `error`
  event and breaks (lines 301-308);
* otherwise the iteration's events are yielded and the loop continues
  after the poll sleep. -/
def streamLoop (st : SessionState) :
    List TickInput → List (Nat × SseEvent) × SessionState × ExitKind
  | [] => ([], st, .exhausted)
  | i :: rest =>
    if i.t - st.start_time > SSE_MAX_DURATION then
      ([(st.event_id + 1, .timeout)], { st with event_id := st.event_id + 1 }, .timedOut)
    else if i.disconnect then
      ([], st, .disconnected)
    else if i.raises then
      ([(st.event_id + 1, .error "Internal error, reconnecting")],
       { st with event_id := st.event_id + 1 }, .errored)
    else
      let (evs, st') := streamIteration i.db i.connCount i.dbOk i.cacheOk i.t st
      let (evs', stF, ex) := streamLoop st' rest
      (evs ++ evs', stF, ex)

/-- The baseline block of `_admin_stream` (admin_sse.py 123-151) run at
connect time `t0` against snapshot `db0`. -/
def initSession (db0 : DB) (t0 : Int) : SessionState :=
  let latest := db0.orders.foldl
    (fun acc o =>
      match acc with
      | none => some o
      | some b => if b.id < o.id then some o else acc)
    none
  { event_id := 1  -- the `connected` yield (lines 154-155) already happened
    start_time := t0
    last_heartbeat := t0
    last_health_check := 0
    last_order_id := latest.map (fun o => o.id)
    last_fraud_alert_id := db0.alerts.foldl (fun acc a => max acc a.id) 0
    last_complaint_count :=
      (db0.complaints.filter (fun c => c.status == "pending")).length
    baselineHadOrder := latest.isSome }

/-- One whole run of the generator `_admin_stream` (admin_sse.py
118-320), entered with the shared counter at `c0`: baseline, the
initial `connected` yield, the loop, and the teardown.  The
`try/except GeneratorExit/finally` shape means `_dec_connections` runs
exactly once whenever the generator terminates — on timeout, on a
caught in-loop error, and on client disconnect alike; only a schedule
that runs out with the generator still suspended (`exhausted`) has not
executed the `finally:` block yet.  Returns the yielded events, the
exit kind, and the counter after teardown. -/
def adminStreamRun (c0 : Int) (db0 : DB) (t0 : Int) (sched : List TickInput) :
    List (Nat × SseEvent) × ExitKind × Int :=
  let st0 := initSession db0 t0
  let (evs, _stF, ex) := streamLoop st0 sched
  let events := (1, SseEvent.connected SSE_MAX_DURATION) :: evs
  match ex with
  | .exhausted => (events, ex, c0)
  | _ => (events, ex, dec_connections c0)

/-- The counter-relevant path of the `admin_sse` view (admin_sse.py
98-115) for an authenticated admin, followed by the streamed session:
pool check, then either the 503 rejection or a full generator run.
Returns the counter after everything and `some 503` on rejection. -/
def admin_sse_session (c : Int) (db0 : DB) (t0 : Int) (sched : List TickInput) :
    Int × Option Nat :=
  let (c1, rejected) := admin_sse_poolCheck c
  match rejected with
  | some code => (c1, some code)
  | none => ((adminStreamRun c1 db0 t0 sched).2.2, none)

-- ────────────────────────────────────────────
-- Invariants used by the idempotence proofs
-- ────────────────────────────────────────────

/-- `db'` extends `db` as the detection pipeline does: the orders, users
and complaints tables are untouched, and any alert matched by a
metadata-blind predicate is still matched afterwards (the pipeline only
appends alert rows and rewrites metadata). -/
def Preserves (db db' : DB) : Prop :=
  db'.orders = db.orders ∧ db'.users = db.users ∧ db'.complaints = db.complaints
  ∧ (∀ p : FraudAlert → Bool,
      (∀ x m, p { x with metadata := m } = p x) →
      db.alerts.any p = true → db'.alerts.any p = true)

-- ────────────────────────────────────────────
-- Concrete instances used by witnesses and counterexamples
-- ────────────────────────────────────────────

/-- An empty database. -/
def emptyDB : DB := ⟨[], [], [], [], 1⟩

/-- A fixed "now" for the concrete scenarios. -/
def now0 : Int := 10000000

/-- Customer 1. -/
def user1 : UserR := ⟨1, "uid1", "Alice", "111", 0⟩

/-- `n` recent orders of customer 1, the first `cancelled` of them
cancelled, the rest delivered. -/
def mkOrders (n cancelled : Nat) (t : Int) : List Order :=
  (List.range n).map (fun i =>
    { id := i + 1, customer_id := 1,
      status := if i < cancelled then "cancelled" else "delivered",
      payment_status := "paid", total := 100, created_at := t })

/-- `n` recent delivered orders of customer 1 with payment status `pay`. -/
def mkPayOrders (n : Nat) (pay : String) (t : Int) : List Order :=
  (List.range n).map (fun i =>
    { id := i + 1, customer_id := 1, status := "delivered",
      payment_status := pay, total := 50, created_at := t })

/-- Customer 1 with 3 of 10 recent orders cancelled (rate 0.30). -/
def dbCancel30 : DB := ⟨mkOrders 10 3 (now0 - 100), [user1], [], [], 1⟩

/-- Customer 1 with 11 of 20 recent orders cancelled (rate 0.55). -/
def dbCancel55 : DB := ⟨mkOrders 20 11 (now0 - 100), [user1], [], [], 1⟩

/-- Customer 1 with 29 of 100 recent orders cancelled (rate 0.29). -/
def dbCancel29 : DB := ⟨mkOrders 100 29 (now0 - 100), [user1], [], [], 1⟩

/-- Customer 1 with `k` refunded orders in the 30-day window. -/
def dbRefund (k : Nat) : DB := ⟨mkPayOrders k "refunded" (now0 - 100), [user1], [], [], 1⟩

/-- Customer 1 with `k` orders inside the 5-minute rapid-order window. -/
def dbRapid (k : Nat) : DB := ⟨mkPayOrders k "paid" (now0 - 60), [user1], [], [], 1⟩

/-- An already-confirmed fraud alert (a terminal state). -/
def confirmedAlert : FraudAlert :=
  { id := 1, alert_type := "high_cancel_rate", severity := "warning",
    status := "confirmed", target_type := "user", target_id := "1",
    target_name := "Alice", metadata := {}, resolved_by := "adm",
    resolved_at := some 5, resolution_note := "", created_at := 0 }

/-- A database holding only the confirmed alert. -/
def confirmedAlertDb : DB := ⟨[], [user1], [], [confirmedAlert], 2⟩

/-- An alert whose metadata holds a negative `cancel_rate`. -/
def negMetaAlert : FraudAlert :=
  { id := 1, alert_type := "order_spike", severity := "info",
    status := "active", target_type := "system", target_id := "",
    target_name := "", metadata := { cancel_rate := some (-5) },
    resolved_by := "", resolved_at := none, resolution_note := "",
    created_at := 0 }

/-- An alert with detector-shaped (nonnegative) metadata. -/
def posMetaAlert : FraudAlert :=
  { id := 2, alert_type := "rapid_orders", severity := "critical",
    status := "active", target_type := "user", target_id := "1",
    target_name := "Alice", metadata := { order_count := some 4 },
    resolved_by := "", resolved_at := none, resolution_note := "",
    created_at := 0 }

/-- A database holding only `posMetaAlert`. -/
def dbPos6 : DB := ⟨[], [], [], [posMetaAlert], 3⟩

/-- Orders exhibiting a spike: 3 old orders five hours back and 7 in the
last hour, so the hourly average is 2 and the last hour holds 7 > 6. -/
def spikeOrders : List Order :=
  ((List.range 3).map (fun i =>
    { id := i + 1, customer_id := 1, status := "delivered",
      payment_status := "paid", total := 10,
      created_at := now0 - 5 * 3600 : Order }))
  ++ ((List.range 7).map (fun i =>
    { id := i + 4, customer_id := 1, status := "delivered",
      payment_status := "paid", total := 10,
      created_at := now0 - 100 : Order }))

/-- An `order_spike` alert created 10 minutes ago and since dismissed. -/
def dismissedSpike : FraudAlert :=
  { id := 99, alert_type := "order_spike", severity := "warning",
    status := "dismissed", target_type := "system", target_id := "",
    target_name := "", metadata := {}, resolved_by := "adm",
    resolved_at := some (now0 - 500), resolution_note := "",
    created_at := now0 - 600 }

/-- Spiking orders together with the dismissed spike alert. -/
def dbSpike : DB := ⟨spikeOrders, [], [], [dismissedSpike], 100⟩

/-- Spiking orders with no alert on file. -/
def dbSpikeClean : DB := ⟨spikeOrders, [], [], [], 1⟩

/-- Four orders of customer 1 inside the rapid-order window. -/
def rapidOrders4 : List Order :=
  (List.range 4).map (fun i =>
    { id := i + 1, customer_id := 1, status := "pending",
      payment_status := "cod", total := 5, created_at := now0 - 60 })

/-- A `rapid_orders` alert for customer 1, still open in the
`investigating` state, created 30 seconds ago. -/
def investigatingRapid : FraudAlert :=
  { id := 7, alert_type := "rapid_orders", severity := "critical",
    status := "investigating", target_type := "user", target_id := "1",
    target_name := "Alice", metadata := {}, resolved_by := "adm",
    resolved_at := none, resolution_note := "", created_at := now0 - 30 }

/-- Customer 1 re-triggering rapid orders while `investigatingRapid` is
still open. -/
def dbRapidOpen : DB := ⟨rapidOrders4, [user1], [], [investigatingRapid], 8⟩

/-- Session state mid-stream: heartbeat last sent 16 seconds ago, order
cursor at id 5. -/
def hbSt : SessionState :=
  { event_id := 1, start_time := 0, last_heartbeat := 0,
    last_health_check := 5, last_order_id := some 5,
    last_fraud_alert_id := 0, last_complaint_count := 0,
    baselineHadOrder := true }

/-- One new order beyond the cursor. -/
def hbDb : DB :=
  ⟨[{ id := 10, customer_id := 1, status := "pending",
      payment_status := "cod", total := 100, created_at := 10 }],
   [], [], [], 1⟩

/-- A tick whose wall clock is already past the max session duration. -/
def tick601 : TickInput := ⟨emptyDB, 0, true, true, 601, false, false⟩

/-- Breaker scenario (threshold 3, window 60, cooldown 20): failing
calls through the wrapper at t = 0, 1, 2. -/
def cbRun1 : CallOutcome Nat String × CBCache × Bool :=
  @with_circuit_breaker Nat String overview_circuit ⟨none⟩ 0 none (Except.error "boom")

/-- Second failing call at t = 1. -/
def cbRun2 : CallOutcome Nat String × CBCache × Bool :=
  @with_circuit_breaker Nat String overview_circuit cbRun1.2.1 1 none (Except.error "boom")

/-- Third failing call at t = 2: opens the circuit. -/
def cbRun3 : CallOutcome Nat String × CBCache × Bool :=
  @with_circuit_breaker Nat String overview_circuit cbRun2.2.1 2 none (Except.error "boom")

/-- Call 10 seconds after the third failure. -/
def cbRun12 : CallOutcome Nat String × CBCache × Bool :=
  @with_circuit_breaker Nat String overview_circuit cbRun3.2.1 12 none (Except.ok 7)

/-- Call 25 seconds after the third failure. -/
def cbRun27 : CallOutcome Nat String × CBCache × Bool :=
  @with_circuit_breaker Nat String overview_circuit cbRun12.2.1 27 none (Except.ok 7)

/-- All numeric metadata fields present are nonnegative (the shape every
detector-produced metadata bag has). -/
def metaNonneg (m : Metadata) : Bool :=
  (match m.cancel_rate with | some v => decide (0 ≤ v) | none => true)
  && (match m.multiplier with | some v => decide (0 ≤ v) | none => true)
  && (match m.order_count with | some v => decide (0 ≤ v) | none => true)
  && (match m.complaint_ratio with | some v => decide (0 ≤ v) | none => true)
  && (match m.refund_count with | some v => decide (0 ≤ v) | none => true)
  && (match m.account_count with | some v => decide (0 ≤ v) | none => true)

-- ────────────────────────────────────────────
-- Theorems
-- ────────────────────────────────────────────

/-- A rational equals its numerator over its denominator, in product
form. -/
theorem num_eq_mul_den (a : Rat) : (a.num : Rat) = a * (a.den : Rat) := by
  have ha : ((a.den : Rat)) ≠ 0 := by exact_mod_cast Nat.cast_ne_zero.mpr a.den_nz
  exact (div_eq_iff ha).mp (Rat.num_div_den a)

/-- `ratAdd` is rational addition. -/
theorem ratAdd_eq_add (a b : Rat) : ratAdd a b = a + b := by
  have ha : ((a.den : Rat)) ≠ 0 := by exact_mod_cast Nat.cast_ne_zero.mpr a.den_nz
  have hb : ((b.den : Rat)) ≠ 0 := by exact_mod_cast Nat.cast_ne_zero.mpr b.den_nz
  unfold ratAdd
  rw [Rat.divInt_eq_div]
  push_cast
  rw [num_eq_mul_den, num_eq_mul_den, div_eq_iff (mul_ne_zero ha hb)]
  ring

/-- `ratSub` is rational subtraction. -/
theorem ratSub_eq_sub (a b : Rat) : ratSub a b = a - b := by
  have ha : ((a.den : Rat)) ≠ 0 := by exact_mod_cast Nat.cast_ne_zero.mpr a.den_nz
  have hb : ((b.den : Rat)) ≠ 0 := by exact_mod_cast Nat.cast_ne_zero.mpr b.den_nz
  unfold ratSub
  rw [Rat.divInt_eq_div]
  push_cast
  rw [num_eq_mul_den, num_eq_mul_den, div_eq_iff (mul_ne_zero ha hb)]
  ring

/-- `ratMul` is rational multiplication. -/
theorem ratMul_eq_mul (a b : Rat) : ratMul a b = a * b := by
  have ha : ((a.den : Rat)) ≠ 0 := by exact_mod_cast Nat.cast_ne_zero.mpr a.den_nz
  have hb : ((b.den : Rat)) ≠ 0 := by exact_mod_cast Nat.cast_ne_zero.mpr b.den_nz
  unfold ratMul
  rw [Rat.divInt_eq_div]
  push_cast
  rw [num_eq_mul_den, num_eq_mul_den, div_eq_iff (mul_ne_zero ha hb)]
  ring

/-- `ratDiv` is rational division. -/
theorem ratDiv_eq_div (a b : Rat) : ratDiv a b = a / b := by
  have ha : ((a.den : Rat)) ≠ 0 := by exact_mod_cast Nat.cast_ne_zero.mpr a.den_nz
  have hb : ((b.den : Rat)) ≠ 0 := by exact_mod_cast Nat.cast_ne_zero.mpr b.den_nz
  unfold ratDiv
  rcases eq_or_ne b 0 with rfl | hbz
  · simp
  · rw [Rat.divInt_eq_div]
    push_cast
    rw [num_eq_mul_den, num_eq_mul_den,
      div_eq_div_iff (mul_ne_zero ha (mul_ne_zero hbz hb)) hbz]
    ring

/-- C2: for the admission controller with maximum `SSE_MAX_CONNECTIONS = 50`,
50 acquires from an empty pool all succeed and leave the counter at 50;
the 51st attempt is rejected with status 503 and the counter stays at 50
(the increment is undone); after one release the next acquire succeeds;
and under any sequence of `_inc_connections`/`_dec_connections` calls
from the initial counter 0 the counter is never negative. -/
theorem admission_controller_C2 :
    (acquireAll 50 = (50, true))
    ∧ (admin_sse_poolCheck 50 = (50, some 503))
    ∧ (admin_sse_poolCheck (dec_connections 50) = (50, none))
    ∧ (∀ ops : List Bool, 0 ≤ counterRun 0 ops) := by
  refine ⟨by decide, by decide, by decide, ?_⟩
  have key : ∀ (ops : List Bool) (c : Int), 0 ≤ c → 0 ≤ counterRun c ops := by
    intro ops
    induction ops with
    | nil => intro c hc; simpa [counterRun] using hc
    | cons op rest ih =>
      intro c hc
      have h1 : 0 ≤ counterStep c op := by
        unfold counterStep inc_connections dec_connections
        split
        · omega
        · exact le_max_left _ _
      have h2 : counterRun c (op :: rest) = counterRun (counterStep c op) rest := by
        simp [counterRun]
      rw [h2]
      exact ih _ h1
  intro ops
  exact key ops 0 le_rfl

/-- C3 counterexample: a single detection rule raising inside
`run_all_detections` is not caught at the rule boundary — the exception
propagates to the caller and no per-rule result map is returned,
contrary to the claim. -/
theorem rule_isolation_C3_counterexample :
    run_all_detections_raising (Except.ok none)
      (Except.error "database unavailable") (Except.ok []) (Except.ok [])
      (Except.ok []) (Except.ok none)
      = Except.error "database unavailable" := rfl

/-- C3 amended: `run_all_detections` applies no per-rule error handling.
Whichever of the six detector calls is the first to raise, its
exception propagates unchanged to the caller (one conjunct per rule
position); the per-rule result map is produced exactly when all six
detector calls succeed: all-success yields the full map, and
conversely any returned map forces every rule call to have been the
corresponding success. -/
theorem rule_isolation_C3_amended :
    (∀ (e : String) r2 r3 r4 r5 r6,
      run_all_detections_raising (Except.error e) r2 r3 r4 r5 r6 = Except.error e)
    ∧ (∀ (e : String) (os : Option FraudAlert) r3 r4 r5 r6,
      run_all_detections_raising (Except.ok os) (Except.error e) r3 r4 r5 r6
        = Except.error e)
    ∧ (∀ (e : String) (os : Option FraudAlert) (hcr : List FraudAlert) r4 r5 r6,
      run_all_detections_raising (Except.ok os) (Except.ok hcr) (Except.error e) r4 r5 r6
        = Except.error e)
    ∧ (∀ (e : String) (os : Option FraudAlert) (hcr ro : List FraudAlert) r5 r6,
      run_all_detections_raising (Except.ok os) (Except.ok hcr) (Except.ok ro)
        (Except.error e) r5 r6 = Except.error e)
    ∧ (∀ (e : String) (os : Option FraudAlert) (hcr ro hc : List FraudAlert) r6,
      run_all_detections_raising (Except.ok os) (Except.ok hcr) (Except.ok ro)
        (Except.ok hc) (Except.error e) r6 = Except.error e)
    ∧ (∀ (e : String) (os : Option FraudAlert) (hcr ro hc rr : List FraudAlert),
      run_all_detections_raising (Except.ok os) (Except.ok hcr) (Except.ok ro)
        (Except.ok hc) (Except.ok rr) (Except.error e) = Except.error e)
    ∧ (∀ (os rac : Option FraudAlert) (hcr ro hc rr : List FraudAlert),
      run_all_detections_raising (Except.ok os) (Except.ok hcr) (Except.ok ro)
        (Except.ok hc) (Except.ok rr) (Except.ok rac)
        = Except.ok { order_spike := os, high_cancel_rate := hcr,
                      rapid_orders := ro, high_complaint_ratio := hc,
                      repeated_refunds := rr, rapid_account_creation := rac })
    ∧ (∀ r1 r2 r3 r4 r5 r6 (m : DetectionResults),
      run_all_detections_raising r1 r2 r3 r4 r5 r6 = Except.ok m →
        r1 = Except.ok m.order_spike ∧ r2 = Except.ok m.high_cancel_rate
        ∧ r3 = Except.ok m.rapid_orders ∧ r4 = Except.ok m.high_complaint_ratio
        ∧ r5 = Except.ok m.repeated_refunds
        ∧ r6 = Except.ok m.rapid_account_creation) := by
  refine ⟨fun _ _ _ _ _ _ => rfl, fun _ _ _ _ _ _ => rfl, fun _ _ _ _ _ _ => rfl,
    fun _ _ _ _ _ _ => rfl, fun _ _ _ _ _ _ => rfl, fun _ _ _ _ _ _ => rfl,
    fun _ _ _ _ _ _ => rfl, ?_⟩
  intro r1 r2 r3 r4 r5 r6 m h
  cases r1 with
  | error e => exact Except.noConfusion (show (Except.error e : Except String DetectionResults) = Except.ok m from h)
  | ok os =>
    cases r2 with
    | error e => exact Except.noConfusion (show (Except.error e : Except String DetectionResults) = Except.ok m from h)
    | ok hcr =>
      cases r3 with
      | error e => exact Except.noConfusion (show (Except.error e : Except String DetectionResults) = Except.ok m from h)
      | ok ro =>
        cases r4 with
        | error e => exact Except.noConfusion (show (Except.error e : Except String DetectionResults) = Except.ok m from h)
        | ok hc =>
          cases r5 with
          | error e => exact Except.noConfusion (show (Except.error e : Except String DetectionResults) = Except.ok m from h)
          | ok rr =>
            cases r6 with
            | error e => exact Except.noConfusion (show (Except.error e : Except String DetectionResults) = Except.ok m from h)
            | ok rac =>
              have h2 : Except.ok (DetectionResults.mk os hcr ro hc rr rac)
                  = Except.ok m := h
              have hm := Except.ok.inj h2
              rw [← hm]
              exact ⟨rfl, rfl, rfl, rfl, rfl, rfl⟩

/-- C7: detection trigger and severity boundaries.  With the minimum-order
precondition met, a cancel rate of 0.30 (3 of 10) yields a warning
alert, 0.55 (11 of 20) a critical one, and 0.29 (29 of 100) none; a
refund count of 3 yields a warning alert and counts of 6 and 7 critical
ones; exactly 4 orders within the 5-minute window yield a critical
rapid-orders alert while 3 yield none. -/
theorem detection_thresholds_C7 :
    ((detect_high_cancel_rate dbCancel30 now0).2.map (fun a => a.severity) = ["warning"])
    ∧ ((detect_high_cancel_rate dbCancel55 now0).2.map (fun a => a.severity) = ["critical"])
    ∧ ((detect_high_cancel_rate dbCancel29 now0).2 = [])
    ∧ ((detect_repeated_refunds (dbRefund 3) now0).2.map (fun a => a.severity) = ["warning"])
    ∧ ((detect_repeated_refunds (dbRefund 6) now0).2.map (fun a => a.severity) = ["critical"])
    ∧ ((detect_repeated_refunds (dbRefund 7) now0).2.map (fun a => a.severity) = ["critical"])
    ∧ ((detect_rapid_orders (dbRapid 4) now0).2.map (fun a => a.severity) = ["critical"])
    ∧ ((detect_rapid_orders (dbRapid 3) now0).2 = []) := by
  decide

/-- C8: circuit-breaker transitions for the breaker configured with
threshold 3, window 60 s, cooldown 20 s (`overview_circuit`): three
consecutive failing calls (each of which executed the protected
operation) leave the stored state open with failure count 3; a call 10
seconds after the third failure is rejected without executing the
operation, answering 503 with the cooldown as retry hint; a call 25
seconds after the third failure executes the operation, is served, and
on that success the stored failure count is back to 0. -/
theorem circuit_breaker_C8 :
    (cbRun1.2.2 = true ∧ cbRun2.2.2 = true ∧ cbRun3.2.2 = true)
    ∧ ((cbGet cbRun3.2.1 2).opened = true ∧ (cbGet cbRun3.2.1 2).failures = 3)
    ∧ (cbRun12.2.2 = false ∧ cbRun12.1 = CallOutcome.unavailable503 20)
    ∧ (cbRun27.2.2 = true ∧ cbRun27.1 = CallOutcome.served 7)
    ∧ ((cbGet cbRun27.2.1 27).failures = 0) := by
  decide

/-- A row of `updateAlertRow db a` carrying `a`'s id is `a` itself. -/
theorem mem_updateAlertRow {db : DB} {a b : FraudAlert}
    (hb : b ∈ (updateAlertRow db a).alerts) (hid : b.id = a.id) : b = a := by
  unfold updateAlertRow at hb
  simp only [List.mem_map] at hb
  obtain ⟨x, _hx, hfx⟩ := hb
  by_cases hxa : (x.id == a.id) = true
  · rw [if_pos hxa] at hfx
    exact hfx.symm
  · rw [if_neg hxa] at hfx
    subst hfx
    exact absurd (beq_iff_eq.mpr hid) hxa

/-- C4 counterexample: `confirmed` is not terminal in the code — the
investigate operation moves a confirmed alert straight to
`investigating`. -/
theorem alert_terminal_C4_counterexample :
    confirmedAlert.status = "confirmed"
    ∧ ((investigate_alert confirmedAlertDb 1 "adm" "").1.alerts.map
        (fun a => a.status) = ["investigating"]) := by
  decide

/-- C4 amended: the dismiss, investigate and confirm views look the
alert up and then set its status unconditionally — to `dismissed`,
`investigating` and `confirmed` respectively — regardless of the
current status, terminal or not.  No terminal-state guard exists. -/
theorem alert_terminal_C4_amended (db : DB) (alert_id : Nat)
    (actor note : String) (now : Int)
    (h : (db.alerts.find? (fun a => a.id == alert_id)).isSome = true) :
    ((dismiss_alert db alert_id actor note now).2 = some "dismissed"
      ∧ ∀ b ∈ (dismiss_alert db alert_id actor note now).1.alerts,
          b.id = alert_id → b.status = "dismissed")
    ∧ ((investigate_alert db alert_id actor note).2 = some "investigating"
      ∧ ∀ b ∈ (investigate_alert db alert_id actor note).1.alerts,
          b.id = alert_id → b.status = "investigating")
    ∧ ((confirm_alert db alert_id actor note now).2 = some "confirmed"
      ∧ ∀ b ∈ (confirm_alert db alert_id actor note now).1.alerts,
          b.id = alert_id → b.status = "confirmed") := by
  obtain ⟨a, ha⟩ := Option.isSome_iff_exists.mp h
  have haid : a.id = alert_id := by
    have := List.find?_some ha
    simpa using this
  refine ⟨⟨?_, ?_⟩, ⟨?_, ?_⟩, ⟨?_, ?_⟩⟩
  · simp [dismiss_alert, ha]
  · intro b hb hbid
    simp only [dismiss_alert, ha] at hb
    have := mem_updateAlertRow hb (by simpa [haid] using hbid)
    rw [this]
  · simp [investigate_alert, ha]
  · intro b hb hbid
    simp only [investigate_alert, ha] at hb
    have := mem_updateAlertRow hb (by simpa [haid] using hbid)
    rw [this]
  · simp [confirm_alert, ha]
  · intro b hb hbid
    simp only [confirm_alert, ha] at hb
    have := mem_updateAlertRow hb (by simpa [haid] using hbid)
    rw [this]

/-- C4 witness: the amended statement applied to the database holding
the confirmed alert. -/
theorem alert_terminal_C4_witness :
    (confirmedAlertDb.alerts.find? (fun a => a.id == 1)).isSome = true
    ∧ (((dismiss_alert confirmedAlertDb 1 "adm" "n" 7).2 = some "dismissed"
      ∧ ∀ b ∈ (dismiss_alert confirmedAlertDb 1 "adm" "n" 7).1.alerts,
          b.id = 1 → b.status = "dismissed")
    ∧ ((investigate_alert confirmedAlertDb 1 "adm" "n").2 = some "investigating"
      ∧ ∀ b ∈ (investigate_alert confirmedAlertDb 1 "adm" "n").1.alerts,
          b.id = 1 → b.status = "investigating")
    ∧ ((confirm_alert confirmedAlertDb 1 "adm" "n" 7).2 = some "confirmed"
      ∧ ∀ b ∈ (confirm_alert confirmedAlertDb 1 "adm" "n" 7).1.alerts,
          b.id = 1 → b.status = "confirmed")) :=
  ⟨by decide, alert_terminal_C4_amended confirmedAlertDb 1 "adm" "n" 7 (by decide)⟩

/-- Truncation toward zero preserves nonnegativity. -/
theorem pyInt_nonneg {q : Rat} (h : 0 ≤ q) : 0 ≤ pyInt q := by
  unfold pyInt
  exact Int.tdiv_nonneg (Rat.num_nonneg.mpr h) (Int.ofNat_nonneg _)

/-- The severity weight is nonnegative for every severity string. -/
theorem severityWeight_nonneg (s : String) : 0 ≤ severityWeight s := by
  unfold severityWeight
  repeat' split
  all_goals norm_num

/-- The type weight is nonnegative for every alert-type string. -/
theorem typeWeight_nonneg (t : String) : 0 ≤ typeWeight t := by
  unfold typeWeight
  repeat' split
  all_goals norm_num

/-- With nonnegative metadata fields, every contextual boost is
nonnegative. -/
theorem metaBoost_nonneg {m : Metadata} (h : metaNonneg m = true) :
    0 ≤ metaBoost m := by
  unfold metaNonneg at h
  simp only [Bool.and_eq_true] at h
  obtain ⟨⟨⟨⟨⟨h1, h2⟩, h3⟩, h4⟩, h5⟩, h6⟩ := h
  unfold metaBoost
  have n1 : 0 ≤ (match m.cancel_rate with
      | some v => min (pyInt (ratMul v 30)) 25 | none => 0) := by
    cases hv : m.cancel_rate with
    | none => norm_num
    | some v =>
      simp only [hv, decide_eq_true_eq] at h1
      simp only []
      refine le_min (pyInt_nonneg ?_) (by norm_num)
      rw [ratMul_eq_mul]
      exact mul_nonneg h1 (by norm_num)
  have n2 : 0 ≤ (match m.multiplier with
      | some v => min (pyInt (ratMul v 3)) 20 | none => 0) := by
    cases hv : m.multiplier with
    | none => norm_num
    | some v =>
      simp only [hv, decide_eq_true_eq] at h2
      simp only []
      refine le_min (pyInt_nonneg ?_) (by norm_num)
      rw [ratMul_eq_mul]
      exact mul_nonneg h2 (by norm_num)
  have n3 : 0 ≤ (match m.order_count with
      | some v => min (v * 2) 15 | none => 0) := by
    cases hv : m.order_count with
    | none => norm_num
    | some v =>
      simp only [hv, decide_eq_true_eq] at h3
      simp only []
      exact le_min (by omega) (by norm_num)
  have n4 : 0 ≤ (match m.complaint_ratio with
      | some v => min (pyInt (ratMul v 25)) 20 | none => 0) := by
    cases hv : m.complaint_ratio with
    | none => norm_num
    | some v =>
      simp only [hv, decide_eq_true_eq] at h4
      simp only []
      refine le_min (pyInt_nonneg ?_) (by norm_num)
      rw [ratMul_eq_mul]
      exact mul_nonneg h4 (by norm_num)
  have n5 : 0 ≤ (match m.refund_count with
      | some v => min (v * 3) 15 | none => 0) := by
    cases hv : m.refund_count with
    | none => norm_num
    | some v =>
      simp only [hv, decide_eq_true_eq] at h5
      simp only []
      exact le_min (by omega) (by norm_num)
  have n6 : 0 ≤ (match m.account_count with
      | some v => min (v * 2) 15 | none => 0) := by
    cases hv : m.account_count with
    | none => norm_num
    | some v =>
      simp only [hv, decide_eq_true_eq] at h6
      simp only []
      exact le_min (by omega) (by norm_num)
  exact add_nonneg (add_nonneg (add_nonneg (add_nonneg (add_nonneg n1 n2) n3) n4) n5) n6

/-- C6 counterexample: with an adversarial metadata value
(`cancel_rate = -5`) the computed risk score is negative, so it is not
within [0, 100] for every metadata key-value combination. -/
theorem risk_score_C6_counterexample :
    (compute_risk_score emptyDB negMetaAlert).2 < 0 := by
  decide

/-- C6 amended: the computed risk score is always at most 100; it is
also at least 0 whenever every numeric metadata field present is
nonnegative (which holds for all detector-produced metadata); and the
score is persisted into the alert row's `metadata['risk_score']`. -/
theorem risk_score_C6_amended (db : DB) (a : FraudAlert) :
    ((compute_risk_score db a).2 ≤ 100)
    ∧ (metaNonneg a.metadata = true → 0 ≤ (compute_risk_score db a).2)
    ∧ (∀ b ∈ (compute_risk_score db a).1.alerts, b.id = a.id →
        b.metadata.risk_score = some (compute_risk_score db a).2) := by
  refine ⟨?_, ?_, ?_⟩
  · simp only [compute_risk_score, riskScoreOf]
    exact min_le_right _ _
  · intro h
    simp only [compute_risk_score, riskScoreOf]
    refine le_min ?_ (by norm_num)
    exact add_nonneg (add_nonneg (severityWeight_nonneg _) (typeWeight_nonneg _))
      (metaBoost_nonneg h)
  · intro b hb hbid
    simp only [compute_risk_score, List.mem_map] at hb
    obtain ⟨x, _hx, hfx⟩ := hb
    by_cases hxa : (x.id == a.id) = true
    · rw [if_pos hxa] at hfx
      rw [← hfx]
      rfl
    · rw [if_neg hxa] at hfx
      subst hfx
      exact absurd (beq_iff_eq.mpr hbid) hxa

/-- C6 witness: the amended statement applied to a detector-shaped
alert with nonnegative metadata. -/
theorem risk_score_C6_witness :
    metaNonneg posMetaAlert.metadata = true
    ∧ 0 ≤ (compute_risk_score dbPos6 posMetaAlert).2 :=
  ⟨by decide, (risk_score_C6_amended dbPos6 posMetaAlert).2.1 (by decide)⟩

/-- Releasing right after acquiring restores a nonnegative counter. -/
theorem dec_inc (c : Int) (hc : 0 ≤ c) :
    dec_connections (inc_connections c) = c := by
  unfold dec_connections inc_connections
  have h1 : c + 1 - 1 = c := by omega
  rw [h1]
  exact max_eq_right hc

/-- C1: for every execution of the admin SSE stream generator, whatever
the exit path — max-duration timeout, an exception raised inside a poll
iteration, or a client disconnect delivered as `GeneratorExit` — the
shared connection counter is decremented exactly once during teardown
(the `finally:` block), so after the session ends the counter equals
its value before the session started.  (A rejected connection is also
counter-neutral.)  The only excluded case is a schedule that ends with
the generator still suspended, where teardown has not happened yet. -/
theorem sse_slot_release_C1 (c : Int) (db0 : DB) (t0 : Int)
    (sched : List TickInput) (hc : 0 ≤ c)
    (hterm : (streamLoop (initSession db0 t0) sched).2.2 ≠ ExitKind.exhausted) :
    (admin_sse_session c db0 t0 sched).1 = c := by
  unfold admin_sse_session admin_sse_poolCheck
  by_cases h50 : inc_connections c > SSE_MAX_CONNECTIONS
  · simp only [if_pos h50]
    exact dec_inc c hc
  · simp only [if_neg h50]
    unfold adminStreamRun
    rcases hE : streamLoop (initSession db0 t0) sched with ⟨evs, stF, ex⟩
    rw [hE] at hterm
    simp only [hE]
    cases ex with
    | exhausted => exact absurd rfl hterm
    | timedOut => exact dec_inc c hc
    | errored => exact dec_inc c hc
    | disconnected => exact dec_inc c hc

/-- C1 witness: the theorem applied at counter 0 to a session whose
first tick hits the max-duration timeout. -/
theorem sse_slot_release_C1_witness :
    ((0 : Int) ≤ 0
      ∧ (streamLoop (initSession emptyDB 0) [tick601]).2.2 ≠ ExitKind.exhausted)
    ∧ (admin_sse_session 0 emptyDB 0 [tick601]).1 = 0 :=
  ⟨⟨by decide, by decide⟩,
   sse_slot_release_C1 0 emptyDB 0 [tick601] (by decide) (by decide)⟩

/-- C9 counterexample: with a dismissed `order_spike` alert created 10
minutes earlier still on file, `detect_order_spike` creates a second
alert, so two `order_spike` alerts end up created within the same hour
— the dedup is conditioned on the earlier alert being `active`, not
purely on the time window. -/
theorem spike_dedup_C9_counterexample :
    dismissedSpike.status = "dismissed"
    ∧ now0 - 3600 ≤ dismissedSpike.created_at
    ∧ (((detect_order_spike dbSpike now0).1.alerts.filter (fun a =>
        a.alert_type == "order_spike" && now0 - 3600 ≤ a.created_at)).length = 2) := by
  decide

/-- C9 amended: whenever `detect_order_spike` creates an alert, no
*active* `order_spike` alert created within the preceding hour existed;
alerts in other statuses (dismissed, investigating, confirmed) within
the window do not block creation. -/
theorem spike_dedup_C9_amended (db : DB) (now : Int)
    (h : (detect_order_spike db now).2.isSome = true) :
    db.alerts.any (activeSpikeAlert (now - 3600)) = false := by
  by_cases hany : db.alerts.any (activeSpikeAlert (now - 3600)) = true
  · exfalso
    unfold detect_order_spike at h
    split at h
    · simp at h
    · split at h
      · simp at h
      · simp only [hany] at h
        simp at h
  · simp only [Bool.not_eq_true] at hany
    exact hany

/-- C9 witness: the amended statement applied to the spiking database
with an empty alert table. -/
theorem spike_dedup_C9_witness :
    ((detect_order_spike dbSpikeClean now0).2.isSome = true)
    ∧ dbSpikeClean.alerts.any (activeSpikeAlert (now0 - 3600)) = false :=
  ⟨by decide, spike_dedup_C9_amended dbSpikeClean now0 (by decide)⟩

/-- The events numbered by `emitAll` are exactly the input events. -/
theorem emitAll_map_snd (es : List SseEvent) :
    ∀ n, ((emitAll n es).1.map Prod.snd) = es := by
  induction es with
  | nil => intro n; rfl
  | cons e es ih => intro n; simp [emitAll, ih]

/-- An event is emitted with some id exactly when it is in the input
list of `emitAll`. -/
theorem emitAll_mem_iff (es : List SseEvent) (n : Nat) (x : SseEvent) :
    (∃ i, (i, x) ∈ (emitAll n es).1) ↔ x ∈ es := by
  constructor
  · rintro ⟨i, hi⟩
    have h2 := List.mem_map_of_mem Prod.snd hi
    rwa [emitAll_map_snd] at h2
  · induction es generalizing n with
    | nil => intro hx; cases hx
    | cons e es ih =>
      intro hx
      rcases List.mem_cons.mp hx with rfl | hx'
      · exact ⟨n + 1, by simp [emitAll]⟩
      · obtain ⟨i, hi⟩ := ih (n + 1) hx'
        exact ⟨i, by simp only [emitAll]; exact List.mem_cons_of_mem _ hi⟩

/-- No order event is a heartbeat. -/
theorem heartbeat_not_mem_orderPhase (db : DB) (st : SessionState) (u c : Int) :
    SseEvent.heartbeat u c ∉ orderPhase db st := by
  simp [orderPhase]

/-- No revenue event is a heartbeat. -/
theorem heartbeat_not_mem_revenuePhase (db : DB) (t : Int) (st : SessionState) (u c : Int) :
    SseEvent.heartbeat u c ∉ revenuePhase db t st := by
  unfold revenuePhase
  split <;> simp

/-- No transient spike event is a heartbeat. -/
theorem heartbeat_not_mem_spikePhase (db : DB) (t : Int) (st : SessionState) (u c : Int) :
    SseEvent.heartbeat u c ∉ spikePhase db t st := by
  unfold spikePhase
  repeat' split
  all_goals simp

/-- No fraud-alert event is a heartbeat. -/
theorem heartbeat_not_mem_fraudPhase (db : DB) (st : SessionState) (u c : Int) :
    SseEvent.heartbeat u c ∉ fraudPhase db st := by
  simp [fraudPhase]

/-- No complaint-spike event is a heartbeat. -/
theorem heartbeat_not_mem_complaintPhase (db : DB) (st : SessionState) (u c : Int) :
    SseEvent.heartbeat u c ∉ complaintPhase db st := by
  unfold complaintPhase
  split <;> simp

/-- No health event is a heartbeat. -/
theorem heartbeat_not_mem_healthPhase (dbOk cacheOk : Bool) (t : Int)
    (st : SessionState) (u c : Int) :
    SseEvent.heartbeat u c ∉ healthPhase dbOk cacheOk t st := by
  unfold healthPhase
  split <;> simp

/-- Membership in the heartbeat phase pins down the condition and the
payload. -/
theorem mem_heartbeatPhase (connCount t : Int) (st : SessionState) (u c : Int) :
    SseEvent.heartbeat u c ∈ heartbeatPhase connCount t st
    ↔ (SSE_HEARTBEAT_INTERVAL < t - st.last_heartbeat
        ∧ u = t - st.start_time ∧ c = connCount) := by
  unfold heartbeatPhase
  split
  · rename_i hcond
    simp only [List.mem_singleton, SseEvent.heartbeat.injEq]
    exact ⟨fun ⟨h1, h2⟩ => ⟨hcond, h1, h2⟩, fun ⟨_, h1, h2⟩ => ⟨h1, h2⟩⟩
  · rename_i hcond
    simp only [List.not_mem_nil, false_iff]
    exact fun ⟨h1, _⟩ => hcond h1

/-- A heartbeat in the full iteration output comes from the heartbeat
phase. -/
theorem heartbeat_mem_iteration_events (db : DB) (connCount : Int)
    (dbOk cacheOk : Bool) (t : Int) (st : SessionState) (u c : Int) :
    SseEvent.heartbeat u c
      ∈ (orderPhase db st ++ revenuePhase db t st ++ spikePhase db t st
        ++ fraudPhase db st ++ complaintPhase db st ++ healthPhase dbOk cacheOk t st
        ++ heartbeatPhase connCount t st)
    ↔ SseEvent.heartbeat u c ∈ heartbeatPhase connCount t st := by
  simp only [List.mem_append]
  constructor
  · rintro ((((((h | h) | h) | h) | h) | h) | h)
    · exact absurd h (heartbeat_not_mem_orderPhase db st u c)
    · exact absurd h (heartbeat_not_mem_revenuePhase db t st u c)
    · exact absurd h (heartbeat_not_mem_spikePhase db t st u c)
    · exact absurd h (heartbeat_not_mem_fraudPhase db st u c)
    · exact absurd h (heartbeat_not_mem_complaintPhase db st u c)
    · exact absurd h (heartbeat_not_mem_healthPhase dbOk cacheOk t st u c)
    · exact h
  · intro h
    exact Or.inr h

/-- C10 amended: in each successful poll iteration, a heartbeat event is
emitted exactly when strictly more than the heartbeat interval (15 s)
elapsed since the last heartbeat — regardless of whether other events
are emitted in the same iteration; when emitted it carries the session
uptime and the current global connection count, and the
last-heartbeat cursor advances to the current time exactly in that
case.  (On an otherwise idle tick this is the only emission.) -/
theorem heartbeat_C10_amended (db : DB) (connCount : Int) (dbOk cacheOk : Bool)
    (t : Int) (st : SessionState) :
    ((∃ i, (i, SseEvent.heartbeat (t - st.start_time) connCount)
        ∈ (streamIteration db connCount dbOk cacheOk t st).1)
      ↔ SSE_HEARTBEAT_INTERVAL < t - st.last_heartbeat)
    ∧ (∀ i u c, (i, SseEvent.heartbeat u c)
        ∈ (streamIteration db connCount dbOk cacheOk t st).1 →
        u = t - st.start_time ∧ c = connCount)
    ∧ ((streamIteration db connCount dbOk cacheOk t st).2.last_heartbeat
        = if SSE_HEARTBEAT_INTERVAL < t - st.last_heartbeat then t
          else st.last_heartbeat) := by
  refine ⟨?_, ?_, rfl⟩
  · rw [show (streamIteration db connCount dbOk cacheOk t st).1
      = (emitAll st.event_id (orderPhase db st ++ revenuePhase db t st
        ++ spikePhase db t st ++ fraudPhase db st ++ complaintPhase db st
        ++ healthPhase dbOk cacheOk t st ++ heartbeatPhase connCount t st)).1 from rfl]
    rw [emitAll_mem_iff, heartbeat_mem_iteration_events, mem_heartbeatPhase]
    constructor
    · exact fun ⟨h, _⟩ => h
    · exact fun h => ⟨h, rfl, rfl⟩
  · intro i u c hi
    have h2 := List.mem_map_of_mem Prod.snd hi
    rw [show (streamIteration db connCount dbOk cacheOk t st).1
      = (emitAll st.event_id (orderPhase db st ++ revenuePhase db t st
        ++ spikePhase db t st ++ fraudPhase db st ++ complaintPhase db st
        ++ healthPhase dbOk cacheOk t st ++ heartbeatPhase connCount t st)).1 from rfl,
      emitAll_map_snd] at h2
    have h3 := (heartbeat_mem_iteration_events db connCount dbOk cacheOk t st u c).mp h2
    exact ((mem_heartbeatPhase connCount t st u c).mp h3).2

/-- C10 counterexample: an iteration with one new order beyond the
cursor and a due heartbeat emits the new-order event, the coupled
revenue update, *and* the heartbeat — so the heartbeat is not
restricted to iterations in which no other event is emitted. -/
theorem heartbeat_C10_counterexample :
    ((streamIteration hbDb 1 true true 16 hbSt).1.map Prod.snd
      = [SseEvent.new_order 10 "pending" 100 10,
         SseEvent.revenue_update 0 1,
         SseEvent.heartbeat 16 1])
    ∧ SseEvent.heartbeat 16 1
        ∈ (streamIteration hbDb 1 true true 16 hbSt).1.map Prod.snd
    ∧ SseEvent.new_order 10 "pending" 100 10
        ∈ (streamIteration hbDb 1 true true 16 hbSt).1.map Prod.snd := by
  refine ⟨by decide, by decide, by decide⟩

/-- C10 witness: the amended statement applied to the concrete
iteration, with its condition and the payload implication discharged at
the emitted heartbeat. -/
theorem heartbeat_C10_witness :
    (∃ i, (i, SseEvent.heartbeat 16 1)
      ∈ (streamIteration hbDb 1 true true 16 hbSt).1)
    ∧ ((16 : Int) = 16 - hbSt.start_time ∧ (1 : Int) = 1) :=
  ⟨(heartbeat_C10_amended hbDb 1 true true 16 hbSt).1.mpr (by decide),
   (heartbeat_C10_amended hbDb 1 true true 16 hbSt).2.1 4 16 1 (by decide)⟩

/-- `Preserves` is reflexive. -/
theorem Preserves_refl (db : DB) : Preserves db db :=
  ⟨rfl, rfl, rfl, fun _ _ h => h⟩

/-- `Preserves` is transitive. -/
theorem Preserves_trans {a b c : DB} (h1 : Preserves a b) (h2 : Preserves b c) :
    Preserves a c :=
  ⟨h2.1.trans h1.1, h2.2.1.trans h1.2.1, h2.2.2.1.trans h1.2.2.1,
   fun p hp h => h2.2.2.2 p hp (h1.2.2.2 p hp h)⟩

/-- Creating an alert only appends a row. -/
theorem createAlert_preserves (db : DB) (mk : Nat → FraudAlert) :
    Preserves db (createAlert db mk).1 := by
  refine ⟨rfl, rfl, rfl, ?_⟩
  intro p _hp h
  simp [createAlert, List.any_append, h]

/-- Persisting a risk score only rewrites one row's metadata. -/
theorem saveRisk_preserves (db : DB) (a : FraudAlert) :
    Preserves db (saveRisk db a) := by
  refine ⟨rfl, rfl, rfl, ?_⟩
  intro p hp h
  rw [List.any_eq_true] at h
  obtain ⟨x, hx, hpx⟩ := h
  have hmem : (if (x.id == a.id) = true
      then { x with metadata := { a.metadata with risk_score := some (riskScoreOf a) } }
      else x) ∈ (saveRisk db a).alerts := by
    simp only [saveRisk, compute_risk_score]
    exact List.mem_map_of_mem _ hx
  rw [List.any_eq_true]
  refine ⟨_, hmem, ?_⟩
  split
  · rw [hp x _]; exact hpx
  · exact hpx

/-- A fold whose step preserves the database preserves it overall. -/
theorem foldl_preserves {α : Type}
    (step : (DB × List FraudAlert) → α → DB × List FraudAlert)
    (hstep : ∀ acc s, Preserves acc.1 (step acc s).1) :
    ∀ (l : List α) (acc : DB × List FraudAlert),
      Preserves acc.1 (l.foldl step acc).1 := by
  intro l
  induction l with
  | nil => intro acc; exact Preserves_refl _
  | cons s rest ih =>
    intro acc
    rw [List.foldl_cons]
    exact Preserves_trans (hstep acc s) (ih (step acc s))

/-- A fold all of whose steps fix the accumulator is the identity. -/
theorem foldl_fix {α : Type}
    (step : (DB × List FraudAlert) → α → DB × List FraudAlert)
    (acc : DB × List FraudAlert) :
    ∀ (l : List α), (∀ s ∈ l, step acc s = acc) → l.foldl step acc = acc := by
  intro l
  induction l with
  | nil => intro _; rfl
  | cons s rest ih =>
    intro h
    rw [List.foldl_cons, h s (List.mem_cons_self s rest)]
    exact ih (fun x hx => h x (List.mem_cons_of_mem s hx))

/-- Appending an alert row preserves the database core. -/
theorem append_preserves (db : DB) (a : FraudAlert) (n : Nat) :
    Preserves db { db with alerts := db.alerts ++ [a], nextAlertId := n } := by
  refine ⟨rfl, rfl, rfl, ?_⟩
  intro p _hp h
  simp [List.any_append, h]

/-- The cancel-rate loop body preserves the database core. -/
theorem hcrStep_preserves (now : Int) (acc : DB × List FraudAlert) (s : CancelStat) :
    Preserves acc.1 (hcrStep now acc s).1 := by
  simp only [hcrStep]
  repeat' split
  all_goals first
    | exact Preserves_refl _
    | (simp only [createAlert]; exact append_preserves _ _ _)

/-- The rapid-order loop body preserves the database core. -/
theorem roStep_preserves (now window_start : Int) (acc : DB × List FraudAlert)
    (s : CountStat) :
    Preserves acc.1 (roStep now window_start acc s).1 := by
  simp only [roStep]
  repeat' split
  all_goals first
    | exact Preserves_refl _
    | (simp only [createAlert]; exact append_preserves _ _ _)

/-- The complaint-ratio loop body preserves the database core. -/
theorem hcStep_preserves (now since : Int) (acc : DB × List FraudAlert)
    (s : TotalStat) :
    Preserves acc.1 (hcStep now since acc s).1 := by
  simp only [hcStep]
  repeat' split
  all_goals first
    | exact Preserves_refl _
    | (simp only [createAlert]; exact append_preserves _ _ _)

/-- The repeated-refund loop body preserves the database core. -/
theorem rrStep_preserves (now : Int) (acc : DB × List FraudAlert) (s : CountStat) :
    Preserves acc.1 (rrStep now acc s).1 := by
  simp only [rrStep]
  repeat' split
  all_goals first
    | exact Preserves_refl _
    | (simp only [createAlert]; exact append_preserves _ _ _)

/-- `detect_order_spike` preserves the database core. -/
theorem detect_order_spike_preserves (db : DB) (now : Int) :
    Preserves db (detect_order_spike db now).1 := by
  simp only [detect_order_spike]
  repeat' split
  all_goals first
    | exact Preserves_refl _
    | (simp only [createAlert]; exact append_preserves _ _ _)

/-- `detect_rapid_account_creation` preserves the database core. -/
theorem detect_rapid_account_creation_preserves (db : DB) (now : Int) :
    Preserves db (detect_rapid_account_creation db now).1 := by
  simp only [detect_rapid_account_creation]
  repeat' split
  all_goals first
    | exact Preserves_refl _
    | (simp only [createAlert]; exact append_preserves _ _ _)

/-- `detect_high_cancel_rate` preserves the database core. -/
theorem detect_high_cancel_rate_preserves (db : DB) (now : Int) :
    Preserves db (detect_high_cancel_rate db now).1 :=
  foldl_preserves _ (hcrStep_preserves now) _ (db, [])

/-- `detect_rapid_orders` preserves the database core. -/
theorem detect_rapid_orders_preserves (db : DB) (now : Int) :
    Preserves db (detect_rapid_orders db now).1 :=
  foldl_preserves _ (roStep_preserves now (now - 5 * 60)) _ (db, [])

/-- `detect_high_complaint_ratio` preserves the database core. -/
theorem detect_high_complaint_ratio_preserves (db : DB) (now : Int) :
    Preserves db (detect_high_complaint_ratio db now).1 :=
  foldl_preserves _ (hcStep_preserves now (now - 30 * 86400)) _ (db, [])

/-- `detect_repeated_refunds` preserves the database core. -/
theorem detect_repeated_refunds_preserves (db : DB) (now : Int) :
    Preserves db (detect_repeated_refunds db now).1 :=
  foldl_preserves _ (rrStep_preserves now) _ (db, [])

/-- The risk-scoring pass preserves the database core. -/
theorem saveRiskFold_preserves (l : List FraudAlert) :
    ∀ db : DB, Preserves db (l.foldl saveRisk db) := by
  induction l with
  | nil => intro db; exact Preserves_refl _
  | cons a rest ih =>
    intro db
    rw [List.foldl_cons]
    exact Preserves_trans (saveRisk_preserves db a) (ih (saveRisk db a))

/-- `findUser` depends only on the users table. -/
theorem findUser_congr {db db' : DB} (h : db'.users = db.users) (cid : Nat) :
    findUser db' cid = findUser db cid := by
  unfold findUser
  rw [h]

/-- `complaintCountOf` depends only on the complaints table. -/
theorem complaintCountOf_congr {db db' : DB} (h : db'.complaints = db.complaints)
    (u : UserR) (since : Int) :
    complaintCountOf db' u since = complaintCountOf db u since := by
  unfold complaintCountOf
  rw [h]

/-- `cancelStats` depends only on the orders table. -/
theorem cancelStats_congr {db db' : DB} (h : db'.orders = db.orders)
    (since : Int) (m : Nat) :
    cancelStats db' since m = cancelStats db since m := by
  unfold cancelStats recentOrders
  rw [h]

/-- `rapidStats` depends only on the orders table. -/
theorem rapidStats_congr {db db' : DB} (h : db'.orders = db.orders)
    (ws : Int) (m : Nat) :
    rapidStats db' ws m = rapidStats db ws m := by
  unfold rapidStats recentOrders
  rw [h]

/-- `orderTotals` depends only on the orders table. -/
theorem orderTotals_congr {db db' : DB} (h : db'.orders = db.orders)
    (since : Int) (m : Nat) :
    orderTotals db' since m = orderTotals db since m := by
  unfold orderTotals recentOrders
  rw [h]

/-- `refundStats` depends only on the orders table. -/
theorem refundStats_congr {db db' : DB} (h : db'.orders = db.orders)
    (since : Int) (m : Nat) :
    refundStats db' since m = refundStats db since m := by
  unfold refundStats
  rw [h]

/-- The whole batch `run_all_detections` preserves the database core. -/
theorem run_all_detections_preserves (db : DB) (now : Int) :
    Preserves db (run_all_detections db now).1 := by
  unfold run_all_detections
  rcases h1 : detect_order_spike db now with ⟨db1, os⟩
  simp only [h1]
  rcases h2 : detect_high_cancel_rate db1 now with ⟨db2, hcr⟩
  simp only [h2]
  rcases h3 : detect_rapid_orders db2 now with ⟨db3, ro⟩
  simp only [h3]
  rcases h4 : detect_high_complaint_ratio db3 now with ⟨db4, hc⟩
  simp only [h4]
  rcases h5 : detect_repeated_refunds db4 now with ⟨db5, rr⟩
  simp only [h5]
  rcases h6 : detect_rapid_account_creation db5 now with ⟨db6, rac⟩
  simp only [h6]
  have p1 : Preserves db db1 := by
    have := detect_order_spike_preserves db now; rwa [h1] at this
  have p2 : Preserves db1 db2 := by
    have := detect_high_cancel_rate_preserves db1 now; rwa [h2] at this
  have p3 : Preserves db2 db3 := by
    have := detect_rapid_orders_preserves db2 now; rwa [h3] at this
  have p4 : Preserves db3 db4 := by
    have := detect_high_complaint_ratio_preserves db3 now; rwa [h4] at this
  have p5 : Preserves db4 db5 := by
    have := detect_repeated_refunds_preserves db4 now; rwa [h5] at this
  have p6 : Preserves db5 db6 := by
    have := detect_rapid_account_creation_preserves db5 now; rwa [h6] at this
  exact Preserves_trans p1 (Preserves_trans p2 (Preserves_trans p3
    (Preserves_trans p4 (Preserves_trans p5 (Preserves_trans p6
      (saveRiskFold_preserves _ db6))))))

/-- After the cancel-rate loop body runs on a triggering group whose
customer exists, an open `high_cancel_rate` alert for that customer is
on file (it either already was, or was just created). -/
theorem hcrStep_blocks (now : Int) (acc : DB × List FraudAlert) (s : CancelStat)
    (htr : ratDiv 3 10 ≤ ratDiv (s.cancelled : Rat) (s.total : Rat))
    (u : UserR) (hu : findUser acc.1 s.customer_id = some u) :
    ((hcrStep now acc s).1.alerts.any
      (openUserAlert "high_cancel_rate" s.customer_id)) = true := by
  have huid : u.id = s.customer_id := by simpa using List.find?_some hu
  simp only [hcrStep]
  rw [if_pos htr]
  simp only [hu]
  by_cases hany : (acc.1.alerts.any (openUserAlert "high_cancel_rate" u.id)) = true
  · rw [if_pos hany, ← huid]
    exact hany
  · rw [if_neg hany]
    simp only [createAlert, List.any_append]
    simp [openUserAlert, huid]

/-- After the whole cancel-rate fold, every triggering group with an
existing customer is blocked. -/
theorem hcr_post (now : Int) (l : List CancelStat) :
    ∀ (acc : DB × List FraudAlert) (s : CancelStat), s ∈ l →
      ratDiv 3 10 ≤ ratDiv (s.cancelled : Rat) (s.total : Rat) →
      (findUser acc.1 s.customer_id).isSome = true →
      ((l.foldl (hcrStep now) acc).1.alerts.any
        (openUserAlert "high_cancel_rate" s.customer_id)) = true := by
  induction l with
  | nil => intro acc s hs _ _; cases hs
  | cons s' rest ih =>
    intro acc s hs htr hfu
    rw [List.foldl_cons]
    rcases List.mem_cons.mp hs with rfl | hs'
    · obtain ⟨u, hu⟩ := Option.isSome_iff_exists.mp hfu
      have hb := hcrStep_blocks now acc s htr u hu
      have hrest := foldl_preserves _ (hcrStep_preserves now) rest (hcrStep now acc s)
      exact hrest.2.2.2 _ (fun x m => rfl) hb
    · have hfu' : (findUser (hcrStep now acc s').1 s.customer_id).isSome = true := by
        rw [findUser_congr (hcrStep_preserves now acc s').2.1]
        exact hfu
      exact ih (hcrStep now acc s') s hs' htr hfu'

/-- Running `detect_high_cancel_rate` again on any database that
preserves a first run's post-state creates nothing and changes
nothing. -/
theorem hcr_second_run (db db' : DB) (now : Int)
    (hP : Preserves (detect_high_cancel_rate db now).1 db') :
    detect_high_cancel_rate db' now = (db', []) := by
  have hOrd : db'.orders = db.orders :=
    hP.1.trans (detect_high_cancel_rate_preserves db now).1
  have hUsr : db'.users = db.users :=
    hP.2.1.trans (detect_high_cancel_rate_preserves db now).2.1
  simp only [detect_high_cancel_rate]
  rw [cancelStats_congr hOrd]
  apply foldl_fix
  intro s hs
  by_cases htr : ratDiv 3 10 ≤ ratDiv (s.cancelled : Rat) (s.total : Rat)
  · cases hu' : findUser db' s.customer_id with
    | none =>
      simp only [hcrStep]
      rw [if_pos htr]
      simp only [hu']
    | some u =>
      have hu : findUser db s.customer_id = some u := by
        rw [← findUser_congr hUsr]
        exact hu'
      have hfu : (findUser db s.customer_id).isSome = true := by rw [hu]; rfl
      have hb1 : ((detect_high_cancel_rate db now).1.alerts.any
          (openUserAlert "high_cancel_rate" s.customer_id)) = true := by
        have h0 := hcr_post now (cancelStats db (now - 30 * 86400) 5) (db, []) s hs htr hfu
        simpa only [detect_high_cancel_rate] using h0
      have hb' : (db'.alerts.any (openUserAlert "high_cancel_rate" s.customer_id)) = true :=
        hP.2.2.2 _ (fun x m => rfl) hb1
      have huid : u.id = s.customer_id := by simpa using List.find?_some hu'
      simp only [hcrStep]
      rw [if_pos htr]
      simp only [hu']
      rw [huid, if_pos hb']
  · simp only [hcrStep]
    rw [if_neg htr]

/-- After the rapid-order loop body runs on a group whose customer
exists, an active in-window `rapid_orders` alert for that customer is on
file. -/
theorem roStep_blocks (now window_start : Int) (hws : window_start ≤ now)
    (acc : DB × List FraudAlert) (s : CountStat)
    (u : UserR) (hu : findUser acc.1 s.customer_id = some u) :
    ((roStep now window_start acc s).1.alerts.any
      (activeRapidAlert s.customer_id window_start)) = true := by
  have huid : u.id = s.customer_id := by simpa using List.find?_some hu
  simp only [roStep, hu]
  by_cases hany : (acc.1.alerts.any (activeRapidAlert u.id window_start)) = true
  · rw [if_pos hany, ← huid]
    exact hany
  · rw [if_neg hany]
    simp only [createAlert, List.any_append]
    simp [activeRapidAlert, huid, hws]

/-- After the whole rapid-order fold, every group with an existing
customer is blocked. -/
theorem ro_post (now window_start : Int) (hws : window_start ≤ now)
    (l : List CountStat) :
    ∀ (acc : DB × List FraudAlert) (s : CountStat), s ∈ l →
      (findUser acc.1 s.customer_id).isSome = true →
      ((l.foldl (roStep now window_start) acc).1.alerts.any
        (activeRapidAlert s.customer_id window_start)) = true := by
  induction l with
  | nil => intro acc s hs _; cases hs
  | cons s' rest ih =>
    intro acc s hs hfu
    rw [List.foldl_cons]
    rcases List.mem_cons.mp hs with rfl | hs'
    · obtain ⟨u, hu⟩ := Option.isSome_iff_exists.mp hfu
      have hb := roStep_blocks now window_start hws acc s u hu
      have hrest := foldl_preserves _ (roStep_preserves now window_start) rest
        (roStep now window_start acc s)
      exact hrest.2.2.2 _ (fun x m => rfl) hb
    · have hfu' : (findUser (roStep now window_start acc s').1 s.customer_id).isSome = true := by
        rw [findUser_congr (roStep_preserves now window_start acc s').2.1]
        exact hfu
      exact ih (roStep now window_start acc s') s hs' hfu'

/-- Running `detect_rapid_orders` again on any database that preserves a
first run's post-state creates nothing and changes nothing. -/
theorem ro_second_run (db db' : DB) (now : Int)
    (hP : Preserves (detect_rapid_orders db now).1 db') :
    detect_rapid_orders db' now = (db', []) := by
  have hOrd : db'.orders = db.orders :=
    hP.1.trans (detect_rapid_orders_preserves db now).1
  have hUsr : db'.users = db.users :=
    hP.2.1.trans (detect_rapid_orders_preserves db now).2.1
  simp only [detect_rapid_orders]
  rw [rapidStats_congr hOrd]
  apply foldl_fix
  intro s hs
  cases hu' : findUser db' s.customer_id with
  | none => simp only [roStep, hu']
  | some u =>
    have hu : findUser db s.customer_id = some u := by
      rw [← findUser_congr hUsr]
      exact hu'
    have hfu : (findUser db s.customer_id).isSome = true := by rw [hu]; rfl
    have hb1 : ((detect_rapid_orders db now).1.alerts.any
        (activeRapidAlert s.customer_id (now - 5 * 60))) = true := by
      have h0 := ro_post now (now - 5 * 60) (by omega)
        (rapidStats db (now - 5 * 60) 3) (db, []) s hs hfu
      simpa only [detect_rapid_orders] using h0
    have hb' : (db'.alerts.any (activeRapidAlert s.customer_id (now - 5 * 60))) = true :=
      hP.2.2.2 _ (fun x m => rfl) hb1
    have huid : u.id = s.customer_id := by simpa using List.find?_some hu'
    simp only [roStep, hu']
    rw [huid, if_pos hb']

/-- After the repeated-refund loop body runs on a group whose customer
exists, an open `repeated_refunds` alert for that customer is on file. -/
theorem rrStep_blocks (now : Int) (acc : DB × List FraudAlert) (s : CountStat)
    (u : UserR) (hu : findUser acc.1 s.customer_id = some u) :
    ((rrStep now acc s).1.alerts.any
      (openUserAlert "repeated_refunds" s.customer_id)) = true := by
  have huid : u.id = s.customer_id := by simpa using List.find?_some hu
  simp only [rrStep, hu]
  by_cases hany : (acc.1.alerts.any (openUserAlert "repeated_refunds" u.id)) = true
  · rw [if_pos hany, ← huid]
    exact hany
  · rw [if_neg hany]
    simp only [createAlert, List.any_append]
    simp [openUserAlert, huid]

/-- After the whole repeated-refund fold, every group with an existing
customer is blocked. -/
theorem rr_post (now : Int) (l : List CountStat) :
    ∀ (acc : DB × List FraudAlert) (s : CountStat), s ∈ l →
      (findUser acc.1 s.customer_id).isSome = true →
      ((l.foldl (rrStep now) acc).1.alerts.any
        (openUserAlert "repeated_refunds" s.customer_id)) = true := by
  induction l with
  | nil => intro acc s hs _; cases hs
  | cons s' rest ih =>
    intro acc s hs hfu
    rw [List.foldl_cons]
    rcases List.mem_cons.mp hs with rfl | hs'
    · obtain ⟨u, hu⟩ := Option.isSome_iff_exists.mp hfu
      have hb := rrStep_blocks now acc s u hu
      have hrest := foldl_preserves _ (rrStep_preserves now) rest (rrStep now acc s)
      exact hrest.2.2.2 _ (fun x m => rfl) hb
    · have hfu' : (findUser (rrStep now acc s').1 s.customer_id).isSome = true := by
        rw [findUser_congr (rrStep_preserves now acc s').2.1]
        exact hfu
      exact ih (rrStep now acc s') s hs' hfu'

/-- Running `detect_repeated_refunds` again on any database that
preserves a first run's post-state creates nothing and changes
nothing. -/
theorem rr_second_run (db db' : DB) (now : Int)
    (hP : Preserves (detect_repeated_refunds db now).1 db') :
    detect_repeated_refunds db' now = (db', []) := by
  have hOrd : db'.orders = db.orders :=
    hP.1.trans (detect_repeated_refunds_preserves db now).1
  have hUsr : db'.users = db.users :=
    hP.2.1.trans (detect_repeated_refunds_preserves db now).2.1
  simp only [detect_repeated_refunds]
  rw [refundStats_congr hOrd]
  apply foldl_fix
  intro s hs
  cases hu' : findUser db' s.customer_id with
  | none => simp only [rrStep, hu']
  | some u =>
    have hu : findUser db s.customer_id = some u := by
      rw [← findUser_congr hUsr]
      exact hu'
    have hfu : (findUser db s.customer_id).isSome = true := by rw [hu]; rfl
    have hb1 : ((detect_repeated_refunds db now).1.alerts.any
        (openUserAlert "repeated_refunds" s.customer_id)) = true := by
      have h0 := rr_post now (refundStats db (now - 30 * 86400) 3) (db, []) s hs hfu
      simpa only [detect_repeated_refunds] using h0
    have hb' : (db'.alerts.any (openUserAlert "repeated_refunds" s.customer_id)) = true :=
      hP.2.2.2 _ (fun x m => rfl) hb1
    have huid : u.id = s.customer_id := by simpa using List.find?_some hu'
    simp only [rrStep, hu']
    rw [huid, if_pos hb']

/-- After the complaint-ratio loop body runs on a triggering group whose
customer exists and has complaints, an open `high_complaint_ratio`
alert for that customer is on file. -/
theorem hcStep_blocks (now since : Int) (acc : DB × List FraudAlert) (s : TotalStat)
    (u : UserR) (hu : findUser acc.1 s.customer_id = some u)
    (hcc : (complaintCountOf acc.1 u since == 0) = false)
    (htr : ratDiv 1 4 ≤ ratDiv (complaintCountOf acc.1 u since : Rat) (s.total : Rat)) :
    ((hcStep now since acc s).1.alerts.any
      (openUserAlert "high_complaint_ratio" s.customer_id)) = true := by
  have huid : u.id = s.customer_id := by simpa using List.find?_some hu
  simp only [hcStep, hu]
  rw [if_neg (by simp [hcc]), if_pos htr]
  by_cases hany : (acc.1.alerts.any (openUserAlert "high_complaint_ratio" u.id)) = true
  · rw [if_pos hany, ← huid]
    exact hany
  · rw [if_neg hany]
    simp only [createAlert, List.any_append]
    simp [openUserAlert, huid]

/-- After the whole complaint-ratio fold, every triggering group with an
existing complaining customer is blocked. -/
theorem hc_post (now since : Int) (l : List TotalStat) :
    ∀ (acc : DB × List FraudAlert) (s : TotalStat) (u : UserR), s ∈ l →
      findUser acc.1 s.customer_id = some u →
      (complaintCountOf acc.1 u since == 0) = false →
      ratDiv 1 4 ≤ ratDiv (complaintCountOf acc.1 u since : Rat) (s.total : Rat) →
      ((l.foldl (hcStep now since) acc).1.alerts.any
        (openUserAlert "high_complaint_ratio" s.customer_id)) = true := by
  induction l with
  | nil => intro acc s u hs _ _ _; cases hs
  | cons s' rest ih =>
    intro acc s u hs hu hcc htr
    rw [List.foldl_cons]
    rcases List.mem_cons.mp hs with rfl | hs'
    · have hb := hcStep_blocks now since acc s u hu hcc htr
      have hrest := foldl_preserves _ (hcStep_preserves now since) rest
        (hcStep now since acc s)
      exact hrest.2.2.2 _ (fun x m => rfl) hb
    · have husers := (hcStep_preserves now since acc s').2.1
      have hcomp := (hcStep_preserves now since acc s').2.2.1
      have hu' : findUser (hcStep now since acc s').1 s.customer_id = some u := by
        rw [findUser_congr husers]
        exact hu
      have hcceq : complaintCountOf (hcStep now since acc s').1 u since
          = complaintCountOf acc.1 u since := complaintCountOf_congr hcomp u since
      refine ih (hcStep now since acc s') s u hs' hu' ?_ ?_
      · rw [hcceq]; exact hcc
      · rw [hcceq]; exact htr

/-- Running `detect_high_complaint_ratio` again on any database that
preserves a first run's post-state creates nothing and changes
nothing. -/
theorem hc_second_run (db db' : DB) (now : Int)
    (hP : Preserves (detect_high_complaint_ratio db now).1 db') :
    detect_high_complaint_ratio db' now = (db', []) := by
  have hOrd : db'.orders = db.orders :=
    hP.1.trans (detect_high_complaint_ratio_preserves db now).1
  have hUsr : db'.users = db.users :=
    hP.2.1.trans (detect_high_complaint_ratio_preserves db now).2.1
  have hCom : db'.complaints = db.complaints :=
    hP.2.2.1.trans (detect_high_complaint_ratio_preserves db now).2.2.1
  simp only [detect_high_complaint_ratio]
  rw [orderTotals_congr hOrd]
  apply foldl_fix
  intro s hs
  cases hu' : findUser db' s.customer_id with
  | none => simp only [hcStep, hu']
  | some u =>
    have hu : findUser db s.customer_id = some u := by
      rw [← findUser_congr hUsr]
      exact hu'
    have hcceq : complaintCountOf db' u (now - 30 * 86400)
        = complaintCountOf db u (now - 30 * 86400) :=
      complaintCountOf_congr hCom u (now - 30 * 86400)
    by_cases hcc : (complaintCountOf db' u (now - 30 * 86400) == 0) = true
    · simp only [hcStep, hu']
      rw [if_pos hcc]
    · have hccF : (complaintCountOf db' u (now - 30 * 86400) == 0) = false := by
        simpa using hcc
      have hccN : complaintCountOf db' u (now - 30 * 86400) ≠ 0 := by
        simpa using hccF
      by_cases htr : ratDiv 1 4 ≤
          ratDiv (complaintCountOf db' u (now - 30 * 86400) : Rat) (s.total : Rat)
      · have hb1 : ((detect_high_complaint_ratio db now).1.alerts.any
            (openUserAlert "high_complaint_ratio" s.customer_id)) = true := by
          have h0 := hc_post now (now - 30 * 86400)
            (orderTotals db (now - 30 * 86400) 3) (db, []) s u hs hu
            (by rw [← hcceq]; exact hccF) (by rw [← hcceq]; exact htr)
          simpa only [detect_high_complaint_ratio] using h0
        have hb' : (db'.alerts.any
            (openUserAlert "high_complaint_ratio" s.customer_id)) = true :=
          hP.2.2.2 _ (fun x m => rfl) hb1
        have huid : u.id = s.customer_id := by simpa using List.find?_some hu'
        simp only [hcStep, hu']
        rw [if_neg (by simpa using hccN), if_pos htr, huid, if_pos hb']
      · simp only [hcStep, hu']
        rw [if_neg (by simpa using hccN), if_neg htr]

/-- C5 counterexample: `detect_rapid_orders` checks only for an *active*
alert created within the current 5-minute window, not for any open
alert — with a 30-second-old `rapid_orders` alert for customer 1 still
open in the `investigating` state, a fresh alert for the same
(alert_type, target) is created, so the customer does not get exactly
one alert while an alert remains open. -/
theorem idempotent_detection_C5_counterexample :
    investigatingRapid.status = "investigating"
    ∧ investigatingRapid.alert_type = "rapid_orders"
    ∧ investigatingRapid.target_id = "1"
    ∧ ((detect_rapid_orders dbRapidOpen now0).2.map
        (fun a => (a.alert_type, a.target_id, a.status))
        = [("rapid_orders", "1", "active")]) := by
  decide

/-- C5 amended: running the full detection batch twice in immediate
succession with no intervening data change creates zero new alerts on
the second run for each per-target rule.  The blocking checks are:
`high_cancel_rate`, `high_complaint_ratio` and `repeated_refunds` skip
a target with an existing alert in {active, investigating};
`rapid_orders` skips a target only when an *active* alert created
within the current 5-minute window exists — which the alert created by
the first run is, so the second immediate run still creates nothing. -/
theorem idempotent_detection_C5_amended (db : DB) (now : Int) :
    ((run_all_detections (run_all_detections db now).1 now).2.high_cancel_rate = [])
    ∧ ((run_all_detections (run_all_detections db now).1 now).2.rapid_orders = [])
    ∧ ((run_all_detections (run_all_detections db now).1 now).2.high_complaint_ratio = [])
    ∧ ((run_all_detections (run_all_detections db now).1 now).2.repeated_refunds = []) := by
  rcases f1 : detect_order_spike db now with ⟨a1, os1⟩
  rcases f2 : detect_high_cancel_rate a1 now with ⟨a2, hcr1⟩
  rcases f3 : detect_rapid_orders a2 now with ⟨a3, ro1⟩
  rcases f4 : detect_high_complaint_ratio a3 now with ⟨a4, hc1⟩
  rcases f5 : detect_repeated_refunds a4 now with ⟨a5, rr1⟩
  rcases f6 : detect_rapid_account_creation a5 now with ⟨a6, rac1⟩
  have hdb1 : (run_all_detections db now).1
      = (os1.toList ++ hcr1 ++ ro1 ++ hc1 ++ rr1 ++ rac1.toList).foldl saveRisk a6 := by
    simp only [run_all_detections, f1, f2, f3, f4, f5, f6]
  have p3 : Preserves a2 a3 := by
    have := detect_rapid_orders_preserves a2 now; rwa [f3] at this
  have p4 : Preserves a3 a4 := by
    have := detect_high_complaint_ratio_preserves a3 now; rwa [f4] at this
  have p5 : Preserves a4 a5 := by
    have := detect_repeated_refunds_preserves a4 now; rwa [f5] at this
  have p6 : Preserves a5 a6 := by
    have := detect_rapid_account_creation_preserves a5 now; rwa [f6] at this
  rw [hdb1]
  set D1 := List.foldl saveRisk a6 (os1.toList ++ hcr1 ++ ro1 ++ hc1 ++ rr1 ++ rac1.toList)
    with hD1
  have psave : Preserves a6 D1 := by
    rw [hD1]; exact saveRiskFold_preserves _ a6
  rcases g1 : detect_order_spike D1 now with ⟨b1, os2⟩
  have pg1 : Preserves D1 b1 := by
    have := detect_order_spike_preserves D1 now
    rwa [g1] at this
  have P_hcr : Preserves a2 b1 :=
    Preserves_trans p3 (Preserves_trans p4 (Preserves_trans p5
      (Preserves_trans p6 (Preserves_trans psave pg1))))
  have P_ro : Preserves a3 b1 :=
    Preserves_trans p4 (Preserves_trans p5
      (Preserves_trans p6 (Preserves_trans psave pg1)))
  have P_hc : Preserves a4 b1 :=
    Preserves_trans p5 (Preserves_trans p6 (Preserves_trans psave pg1))
  have P_rr : Preserves a5 b1 :=
    Preserves_trans p6 (Preserves_trans psave pg1)
  have h2nd_hcr : detect_high_cancel_rate b1 now = (b1, []) :=
    hcr_second_run a1 b1 now (by rw [f2]; exact P_hcr)
  have h2nd_ro : detect_rapid_orders b1 now = (b1, []) :=
    ro_second_run a2 b1 now (by rw [f3]; exact P_ro)
  have h2nd_hc : detect_high_complaint_ratio b1 now = (b1, []) :=
    hc_second_run a3 b1 now (by rw [f4]; exact P_hc)
  have h2nd_rr : detect_repeated_refunds b1 now = (b1, []) :=
    rr_second_run a4 b1 now (by rw [f5]; exact P_rr)
  rcases g6 : detect_rapid_account_creation b1 now with ⟨b6, rac2⟩
  refine ⟨?_, ?_, ?_, ?_⟩ <;>
    simp only [run_all_detections, g1, h2nd_hcr, h2nd_ro, h2nd_hc, h2nd_rr, g6,
      List.map_nil]
